import Mathlib

/-!
Verification of the Pixel Flow PM Hub core: the in-memory multi-entity
store (`MemStorage` in the server storage module), the template catalog and
cascade behavior of `createProject` / `deleteProject`, the zod update
schemas of `shared/schema.ts`, the PATCH route bodies of the server route
module, the budget calculator of `budget-tracker.tsx`, and the timeline
aggregation of the calendar page.

Modelling conventions:
- JS string record ids (`randomUUID()`) are modelled as `Nat` drawn from a
  counter `nextId` in the store state; the generator's contract is global
  uniqueness, which the counter realizes.  `new Date()` creation stamps are
  modelled by the same logical clock (`createdAt` := the fresh id).
- A JS `Map<string, T>` is a `List (Nat × T)` of key/value entries in
  insertion order: `set` replaces in place or appends, `delete` removes by
  key, `values()` is the second projection in order.
- A JS `Date` is a `DateTime` record (year/month/day/hour/minute);
  `Date.getTime()` ordering is the lexicographic key `DateTime.timeKey`,
  and date-fns `isSameDay` compares the year/month/day triple.
- A TS `Partial<T>` value is a record with every field wrapped in `Option`
  (`none` = the key is absent).  A field whose stored type is itself
  nullable/optional is wrapped twice: `some none` models a key that is
  present with value `undefined`/`null`, which a JS object spread applies
  (overwriting the stored value), unlike an absent key.
- zod `.parse` on an object schema keeps every known key that is present in
  the input, even when its value is `undefined`, and strips unknown keys;
  the `parseUpdate*` functions below embed the `update*Schema` definitions
  of `shared/schema.ts` accordingly.
- JS arithmetic on the integer budget fields is exact and modelled on `Int`
  (division for the margin percentage is modelled on `ℚ`, where it is also
  exact for the inputs the claims mention).
-/

namespace PixelFlow

/-- Abstraction of a JS `Date`: a calendar instant with minute precision. -/
structure DateTime where
  year : Nat
  month : Nat
  day : Nat
  hour : Nat
  minute : Nat
deriving DecidableEq, Repr

/-- Monotone encoding of `Date.getTime()` used only for comparisons. -/
def DateTime.timeKey (d : DateTime) : Nat :=
  (((d.year * 12 + d.month) * 31 + d.day) * 24 + d.hour) * 60 + d.minute

/-- date-fns `isSameDay`: same year, month and day. -/
def sameDay (a b : DateTime) : Bool :=
  a.year == b.year && a.month == b.month && a.day == b.day

/-- `Project` row type of `shared/schema.ts` (`$inferSelect`).  The `section`
field of tasks is spelled `sectionName` here because `section` is reserved
in Lean. -/
structure Project where
  id : Nat
  name : String
  type : String
  status : String
  clientName : Option String
  shootDate : Option DateTime
  budget : Option Int
  description : Option String
  createdAt : Nat
deriving DecidableEq, Repr

/-- `Task` row type of `shared/schema.ts`. -/
structure Task where
  id : Nat
  projectId : Nat
  title : String
  sectionName : String
  status : String
  assignee : Option String
  dueDate : Option DateTime
  createdAt : Nat
deriving DecidableEq, Repr

/-- `Contact` row type of `shared/schema.ts`. -/
structure Contact where
  id : Nat
  projectId : Nat
  name : String
  role : String
  email : Option String
  phone : Option String
  notes : Option String
deriving DecidableEq, Repr

/-- `BudgetItem` row type of `shared/schema.ts`. -/
structure BudgetItem where
  id : Nat
  projectId : Nat
  description : String
  plannedCost : Int
  actualCost : Int
  paymentStatus : String
  category : Option String
deriving DecidableEq, Repr

/-- `CalendarEvent` row type of `shared/schema.ts`. -/
structure CalendarEvent where
  id : Nat
  projectId : Nat
  title : String
  type : String
  startDate : DateTime
  endDate : Option DateTime
  description : Option String
  location : Option String
deriving DecidableEq, Repr

/-- `InsertProject` (the insert schema: a project without `id`/`createdAt`). -/
structure InsertProject where
  name : String
  type : String
  status : String
  clientName : Option String
  shootDate : Option DateTime
  budget : Option Int
  description : Option String
deriving DecidableEq, Repr

/-- `InsertTask` (the insert schema: a task without `id`/`createdAt`). -/
structure InsertTask where
  projectId : Nat
  title : String
  sectionName : String
  status : String
  assignee : Option String
  dueDate : Option DateTime
deriving DecidableEq, Repr

/-- `InsertContact`. -/
structure InsertContact where
  projectId : Nat
  name : String
  role : String
  email : Option String
  phone : Option String
  notes : Option String
deriving DecidableEq, Repr

/-- `InsertBudgetItem`. -/
structure InsertBudgetItem where
  projectId : Nat
  description : String
  plannedCost : Int
  actualCost : Int
  paymentStatus : String
  category : Option String
deriving DecidableEq, Repr

/-- `InsertCalendarEvent`. -/
structure InsertCalendarEvent where
  projectId : Nat
  title : String
  type : String
  startDate : DateTime
  endDate : Option DateTime
  description : Option String
  location : Option String
deriving DecidableEq, Repr

/-- One entry of the static `projectTemplates` table. -/
structure TaskTemplate where
  title : String
  sectionName : String
deriving DecidableEq, Repr

/-- The `Wedding` entry of `projectTemplates` in `shared/schema.ts`. -/
def weddingTemplate : List TaskTemplate :=
  [ ⟨"Book venue", "Pre-Production"⟩,
    ⟨"Create shot list", "Pre-Production"⟩,
    ⟨"Send questionnaire to couple", "Pre-Production"⟩,
    ⟨"Scout location", "Pre-Production"⟩,
    ⟨"Confirm timeline with couple", "Pre-Production"⟩,
    ⟨"Charge batteries", "Shoot Day"⟩,
    ⟨"Pack equipment", "Shoot Day"⟩,
    ⟨"Conduct ceremony shots", "Shoot Day"⟩,
    ⟨"Capture reception moments", "Shoot Day"⟩,
    ⟨"Import and backup photos", "Post-Production"⟩,
    ⟨"Cull images", "Post-Production"⟩,
    ⟨"Edit selected photos", "Post-Production"⟩,
    ⟨"Deliver final gallery", "Post-Production"⟩ ]

/-- The `Portrait` entry of `projectTemplates`. -/
def portraitTemplate : List TaskTemplate :=
  [ ⟨"Discuss vision with client", "Pre-Production"⟩,
    ⟨"Choose location or studio", "Pre-Production"⟩,
    ⟨"Plan wardrobe and props", "Pre-Production"⟩,
    ⟨"Book makeup artist (if needed)", "Pre-Production"⟩,
    ⟨"Set up lighting", "Shoot Day"⟩,
    ⟨"Conduct portrait session", "Shoot Day"⟩,
    ⟨"Review shots with client", "Shoot Day"⟩,
    ⟨"Import and backup photos", "Post-Production"⟩,
    ⟨"Retouch selected images", "Post-Production"⟩,
    ⟨"Deliver finals to client", "Post-Production"⟩ ]

/-- The `Commercial` entry of `projectTemplates`. -/
def commercialTemplate : List TaskTemplate :=
  [ ⟨"Review creative brief", "Pre-Production"⟩,
    ⟨"Create shot list", "Pre-Production"⟩,
    ⟨"Secure permits if needed", "Pre-Production"⟩,
    ⟨"Hire crew/assistants", "Pre-Production"⟩,
    ⟨"Scout and prepare location", "Pre-Production"⟩,
    ⟨"Conduct product/brand shoot", "Shoot Day"⟩,
    ⟨"Review shots with client", "Shoot Day"⟩,
    ⟨"Import and organize files", "Post-Production"⟩,
    ⟨"Edit to brand guidelines", "Post-Production"⟩,
    ⟨"Submit for client approval", "Post-Production"⟩,
    ⟨"Deliver final assets", "Post-Production"⟩ ]

/-- The `Event` entry of `projectTemplates`. -/
def eventTemplate : List TaskTemplate :=
  [ ⟨"Discuss event details with client", "Pre-Production"⟩,
    ⟨"Create shot list", "Pre-Production"⟩,
    ⟨"Scout venue", "Pre-Production"⟩,
    ⟨"Plan equipment needs", "Pre-Production"⟩,
    ⟨"Arrive early for setup", "Shoot Day"⟩,
    ⟨"Capture key moments", "Shoot Day"⟩,
    ⟨"Photograph attendees", "Shoot Day"⟩,
    ⟨"Import and backup photos", "Post-Production"⟩,
    ⟨"Cull and organize images", "Post-Production"⟩,
    ⟨"Edit selected photos", "Post-Production"⟩,
    ⟨"Deliver event gallery", "Post-Production"⟩ ]

/-- `projectTemplates[type]`: key lookup in the static template object,
`none` for a key the object does not have. -/
def projectTemplates (t : String) : Option (List TaskTemplate) :=
  if t = "Wedding" then some weddingTemplate
  else if t = "Portrait" then some portraitTemplate
  else if t = "Commercial" then some commercialTemplate
  else if t = "Event" then some eventTemplate
  else if t = "Blank" then some []
  else none

/-! ### JS `Map` operations, modelled on association lists in insertion order -/

/-- `map.get(k)`. -/
def mapGet {α : Type} (m : List (Nat × α)) (k : Nat) : Option α :=
  (m.find? (fun kv => kv.1 == k)).map (·.2)

/-- `map.has(k)`. -/
def mapHas {α : Type} (m : List (Nat × α)) (k : Nat) : Bool :=
  m.any (fun kv => kv.1 == k)

/-- `map.set(k, v)`: replace in place when the key exists, else append. -/
def mapSet {α : Type} (m : List (Nat × α)) (k : Nat) (v : α) : List (Nat × α) :=
  if m.any (fun kv => kv.1 == k) then
    m.map (fun kv => if kv.1 == k then (k, v) else kv)
  else
    m ++ [(k, v)]

/-- `map.delete(k)` (the state part; the returned boolean is `mapHas`). -/
def mapDelete {α : Type} (m : List (Nat × α)) (k : Nat) : List (Nat × α) :=
  m.filter (fun kv => kv.1 != k)

/-- `Array.from(map.values())`. -/
def mapValues {α : Type} (m : List (Nat × α)) : List α :=
  m.map (·.2)

/-! ### `Partial<T>` update payloads and the spread merge

A field of the payload is `none` when the key is absent.  For a stored field
that is itself optional, `some none` models a key present with value
`undefined`, which `{ ...record, ...data }` applies. -/

/-- `Partial<Project>` as accepted by `MemStorage.updateProject`. -/
structure ProjectPatch where
  id : Option Nat
  name : Option String
  type : Option String
  status : Option String
  clientName : Option (Option String)
  shootDate : Option (Option DateTime)
  budget : Option (Option Int)
  description : Option (Option String)
  createdAt : Option Nat
deriving DecidableEq, Repr

/-- `Partial<Task>` as accepted by `MemStorage.updateTask`. -/
structure TaskPatch where
  id : Option Nat
  projectId : Option Nat
  title : Option String
  sectionName : Option String
  status : Option String
  assignee : Option (Option String)
  dueDate : Option (Option DateTime)
  createdAt : Option Nat
deriving DecidableEq, Repr

/-- `Partial<Contact>` as accepted by `MemStorage.updateContact`. -/
structure ContactPatch where
  id : Option Nat
  projectId : Option Nat
  name : Option String
  role : Option String
  email : Option (Option String)
  phone : Option (Option String)
  notes : Option (Option String)
deriving DecidableEq, Repr

/-- `Partial<BudgetItem>` as accepted by `MemStorage.updateBudgetItem`. -/
structure BudgetItemPatch where
  id : Option Nat
  projectId : Option Nat
  description : Option String
  plannedCost : Option Int
  actualCost : Option Int
  paymentStatus : Option String
  category : Option (Option String)
deriving DecidableEq, Repr

/-- `Partial<CalendarEvent>` as accepted by `MemStorage.updateCalendarEvent`. -/
structure CalendarEventPatch where
  id : Option Nat
  projectId : Option Nat
  title : Option String
  type : Option String
  startDate : Option DateTime
  endDate : Option (Option DateTime)
  description : Option (Option String)
  location : Option (Option String)
deriving DecidableEq, Repr

/-- `{ ...project, ...data }`. -/
def mergeProject (p : Project) (d : ProjectPatch) : Project :=
  { id := d.id.getD p.id
    name := d.name.getD p.name
    type := d.type.getD p.type
    status := d.status.getD p.status
    clientName := d.clientName.getD p.clientName
    shootDate := d.shootDate.getD p.shootDate
    budget := d.budget.getD p.budget
    description := d.description.getD p.description
    createdAt := d.createdAt.getD p.createdAt }

/-- `{ ...task, ...data }`. -/
def mergeTask (t : Task) (d : TaskPatch) : Task :=
  { id := d.id.getD t.id
    projectId := d.projectId.getD t.projectId
    title := d.title.getD t.title
    sectionName := d.sectionName.getD t.sectionName
    status := d.status.getD t.status
    assignee := d.assignee.getD t.assignee
    dueDate := d.dueDate.getD t.dueDate
    createdAt := d.createdAt.getD t.createdAt }

/-- `{ ...contact, ...data }`. -/
def mergeContact (c : Contact) (d : ContactPatch) : Contact :=
  { id := d.id.getD c.id
    projectId := d.projectId.getD c.projectId
    name := d.name.getD c.name
    role := d.role.getD c.role
    email := d.email.getD c.email
    phone := d.phone.getD c.phone
    notes := d.notes.getD c.notes }

/-- `{ ...item, ...data }`. -/
def mergeBudgetItem (b : BudgetItem) (d : BudgetItemPatch) : BudgetItem :=
  { id := d.id.getD b.id
    projectId := d.projectId.getD b.projectId
    description := d.description.getD b.description
    plannedCost := d.plannedCost.getD b.plannedCost
    actualCost := d.actualCost.getD b.actualCost
    paymentStatus := d.paymentStatus.getD b.paymentStatus
    category := d.category.getD b.category }

/-- `{ ...event, ...data }`. -/
def mergeCalendarEvent (e : CalendarEvent) (d : CalendarEventPatch) : CalendarEvent :=
  { id := d.id.getD e.id
    projectId := d.projectId.getD e.projectId
    title := d.title.getD e.title
    type := d.type.getD e.type
    startDate := d.startDate.getD e.startDate
    endDate := d.endDate.getD e.endDate
    description := d.description.getD e.description
    location := d.location.getD e.location }

/-! ### The store (`class MemStorage`) -/

/-- The state of `MemStorage`: five keyed collections plus the identifier
generator's counter (the embedding of `randomUUID()`, see the header). -/
structure MemStorage where
  nextId : Nat
  projects : List (Nat × Project)
  tasks : List (Nat × Task)
  contacts : List (Nat × Contact)
  budgetItems : List (Nat × BudgetItem)
  calendarEvents : List (Nat × CalendarEvent)
deriving Repr

namespace MemStorage

/-- `getProjects()`. -/
def getProjects (s : MemStorage) : List Project :=
  mapValues s.projects

/-- `getProject(id)`. -/
def getProject (s : MemStorage) (id : Nat) : Option Project :=
  mapGet s.projects id

/-- `getTasks()`. -/
def getTasks (s : MemStorage) : List Task :=
  mapValues s.tasks

/-- `getTask(id)`. -/
def getTask (s : MemStorage) (id : Nat) : Option Task :=
  mapGet s.tasks id

/-- `getTasksByProject(projectId)`. -/
def getTasksByProject (s : MemStorage) (projectId : Nat) : List Task :=
  (mapValues s.tasks).filter (fun t => t.projectId == projectId)

/-- `getContacts()`. -/
def getContacts (s : MemStorage) : List Contact :=
  mapValues s.contacts

/-- `getContact(id)`. -/
def getContact (s : MemStorage) (id : Nat) : Option Contact :=
  mapGet s.contacts id

/-- `getContactsByProject(projectId)`. -/
def getContactsByProject (s : MemStorage) (projectId : Nat) : List Contact :=
  (mapValues s.contacts).filter (fun c => c.projectId == projectId)

/-- `getBudgetItems()`. -/
def getBudgetItems (s : MemStorage) : List BudgetItem :=
  mapValues s.budgetItems

/-- `getBudgetItem(id)`. -/
def getBudgetItem (s : MemStorage) (id : Nat) : Option BudgetItem :=
  mapGet s.budgetItems id

/-- `getBudgetItemsByProject(projectId)`. -/
def getBudgetItemsByProject (s : MemStorage) (projectId : Nat) : List BudgetItem :=
  (mapValues s.budgetItems).filter (fun b => b.projectId == projectId)

/-- `getCalendarEvents()`. -/
def getCalendarEvents (s : MemStorage) : List CalendarEvent :=
  mapValues s.calendarEvents

/-- `getCalendarEvent(id)`. -/
def getCalendarEvent (s : MemStorage) (id : Nat) : Option CalendarEvent :=
  mapGet s.calendarEvents id

/-- `getCalendarEventsByProject(projectId)`. -/
def getCalendarEventsByProject (s : MemStorage) (projectId : Nat) : List CalendarEvent :=
  (mapValues s.calendarEvents).filter (fun e => e.projectId == projectId)

/-- `createTask(insertTask)`: fresh id, creation stamp, `tasks.set(id, task)`. -/
def createTask (s : MemStorage) (t : InsertTask) : Task × MemStorage :=
  let id := s.nextId
  let task : Task :=
    { id := id
      projectId := t.projectId
      title := t.title
      sectionName := t.sectionName
      status := t.status
      assignee := t.assignee
      dueDate := t.dueDate
      createdAt := id }
  (task, { s with nextId := id + 1, tasks := mapSet s.tasks id task })

/-- The template loop of `createProject`: one `createTask` per template
entry, in order, with `status` `"To Do"`, empty `assignee` and no due date. -/
def instantiateTemplate (projectId : Nat) (template : List TaskTemplate)
    (s : MemStorage) : MemStorage :=
  template.foldl
    (fun st tt =>
      (st.createTask
        { projectId := projectId
          title := tt.title
          sectionName := tt.sectionName
          status := "To Do"
          assignee := some ""
          dueDate := none }).2)
    s

/-- `{ ...insertProject, id, createdAt: new Date() }`. -/
def mkProject (s : MemStorage) (p : InsertProject) : Project :=
  { id := s.nextId
    name := p.name
    type := p.type
    status := p.status
    clientName := p.clientName
    shootDate := p.shootDate
    budget := p.budget
    description := p.description
    createdAt := s.nextId }

/-- `createProject(insertProject)`: insert the project, then, when its type
is truthy and not `"Blank"` and the template table has the type, create one
task per template entry in order. -/
def createProject (s : MemStorage) (p : InsertProject) : Project × MemStorage :=
  let project := mkProject s p
  let s1 : MemStorage :=
    { s with nextId := s.nextId + 1, projects := mapSet s.projects s.nextId project }
  if p.type ≠ "" ∧ p.type ≠ "Blank" then
    match projectTemplates p.type with
    | some template => (project, instantiateTemplate s.nextId template s1)
    | none => (project, s1)
  else
    (project, s1)

/-- `updateProject(id, data)`. -/
def updateProject (s : MemStorage) (id : Nat) (d : ProjectPatch) :
    Option Project × MemStorage :=
  match mapGet s.projects id with
  | none => (none, s)
  | some p =>
    let updated := mergeProject p d
    (some updated, { s with projects := mapSet s.projects id updated })

/-- `updateTask(id, data)`. -/
def updateTask (s : MemStorage) (id : Nat) (d : TaskPatch) :
    Option Task × MemStorage :=
  match mapGet s.tasks id with
  | none => (none, s)
  | some t =>
    let updated := mergeTask t d
    (some updated, { s with tasks := mapSet s.tasks id updated })

/-- `updateContact(id, data)`. -/
def updateContact (s : MemStorage) (id : Nat) (d : ContactPatch) :
    Option Contact × MemStorage :=
  match mapGet s.contacts id with
  | none => (none, s)
  | some c =>
    let updated := mergeContact c d
    (some updated, { s with contacts := mapSet s.contacts id updated })

/-- `updateBudgetItem(id, data)`. -/
def updateBudgetItem (s : MemStorage) (id : Nat) (d : BudgetItemPatch) :
    Option BudgetItem × MemStorage :=
  match mapGet s.budgetItems id with
  | none => (none, s)
  | some b =>
    let updated := mergeBudgetItem b d
    (some updated, { s with budgetItems := mapSet s.budgetItems id updated })

/-- `updateCalendarEvent(id, data)`. -/
def updateCalendarEvent (s : MemStorage) (id : Nat) (d : CalendarEventPatch) :
    Option CalendarEvent × MemStorage :=
  match mapGet s.calendarEvents id with
  | none => (none, s)
  | some e =>
    let updated := mergeCalendarEvent e d
    (some updated, { s with calendarEvents := mapSet s.calendarEvents id updated })

/-- The dependent-collection sweep of `deleteProject`: collect the values
whose `projectId` matches, then delete each collected record by its id. -/
def sweep {α : Type} (idf pf : α → Nat) (pid : Nat) (m : List (Nat × α)) :
    List (Nat × α) :=
  ((mapValues m).filter (fun t => pf t == pid)).foldl
    (fun acc t => mapDelete acc (idf t)) m

/-- `deleteProject(id)`: delete the project; when it was present, sweep the
four dependent collections. -/
def deleteProject (s : MemStorage) (id : Nat) : Bool × MemStorage :=
  let deleted := mapHas s.projects id
  if deleted then
    (true,
      { s with
        projects := mapDelete s.projects id
        tasks := sweep Task.id Task.projectId id s.tasks
        contacts := sweep Contact.id Contact.projectId id s.contacts
        budgetItems := sweep BudgetItem.id BudgetItem.projectId id s.budgetItems
        calendarEvents :=
          sweep CalendarEvent.id CalendarEvent.projectId id s.calendarEvents })
  else
    (false, s)

/-- `deleteTask(id)`: `return this.tasks.delete(id)`. -/
def deleteTask (s : MemStorage) (id : Nat) : Bool × MemStorage :=
  (mapHas s.tasks id, { s with tasks := mapDelete s.tasks id })

/-- `deleteContact(id)`. -/
def deleteContact (s : MemStorage) (id : Nat) : Bool × MemStorage :=
  (mapHas s.contacts id, { s with contacts := mapDelete s.contacts id })

/-- `deleteBudgetItem(id)`. -/
def deleteBudgetItem (s : MemStorage) (id : Nat) : Bool × MemStorage :=
  (mapHas s.budgetItems id, { s with budgetItems := mapDelete s.budgetItems id })

/-- `deleteCalendarEvent(id)`. -/
def deleteCalendarEvent (s : MemStorage) (id : Nat) : Bool × MemStorage :=
  (mapHas s.calendarEvents id,
    { s with calendarEvents := mapDelete s.calendarEvents id })

/-- `createContact(insertContact)`. -/
def createContact (s : MemStorage) (c : InsertContact) : Contact × MemStorage :=
  let id := s.nextId
  let contact : Contact :=
    { id := id
      projectId := c.projectId
      name := c.name
      role := c.role
      email := c.email
      phone := c.phone
      notes := c.notes }
  (contact, { s with nextId := id + 1, contacts := mapSet s.contacts id contact })

/-- `createBudgetItem(insertItem)`. -/
def createBudgetItem (s : MemStorage) (b : InsertBudgetItem) :
    BudgetItem × MemStorage :=
  let id := s.nextId
  let item : BudgetItem :=
    { id := id
      projectId := b.projectId
      description := b.description
      plannedCost := b.plannedCost
      actualCost := b.actualCost
      paymentStatus := b.paymentStatus
      category := b.category }
  (item, { s with nextId := id + 1, budgetItems := mapSet s.budgetItems id item })

/-- `createCalendarEvent(insertEvent)`. -/
def createCalendarEvent (s : MemStorage) (e : InsertCalendarEvent) :
    CalendarEvent × MemStorage :=
  let id := s.nextId
  let event : CalendarEvent :=
    { id := id
      projectId := e.projectId
      title := e.title
      type := e.type
      startDate := e.startDate
      endDate := e.endDate
      description := e.description
      location := e.location }
  (event,
    { s with nextId := id + 1, calendarEvents := mapSet s.calendarEvents id event })

end MemStorage

/-! ### The update schemas of `shared/schema.ts` and the PATCH route bodies

A `Raw*Patch` is an arbitrary request body for the matching PATCH route:
every column key may be absent or present (for nullable columns, present
possibly with `undefined`), including the keys the update schema omits
(`projectId`, and `id`/`createdAt`, which already the insert schema omits).
`parseUpdate*` embeds `update*Schema.parse`: known keys pass through
unchanged (a key present with `undefined` stays present with `undefined`),
omitted/unknown keys are stripped. -/

/-- A request body for `PATCH /api/projects/:id` before validation.  The
`shootDate` field holds the result of the route's coercion
`req.body.shootDate ? new Date(req.body.shootDate) : undefined`, so `none`
covers both an absent and a falsy `shootDate`. -/
structure RawProjectPatch where
  id : Option Nat
  name : Option String
  type : Option String
  status : Option String
  clientName : Option (Option String)
  shootDate : Option DateTime
  budget : Option (Option Int)
  description : Option (Option String)
  createdAt : Option Nat
deriving DecidableEq, Repr

/-- A request body for `PATCH /api/tasks/:id` as seen by
`updateTaskSchema.parse` (no route date coercion applied here; `dueDate`
may be absent, present with `undefined`, or present with a date). -/
structure RawTaskPatch where
  id : Option Nat
  projectId : Option Nat
  title : Option String
  sectionName : Option String
  status : Option String
  assignee : Option (Option String)
  dueDate : Option (Option DateTime)
  createdAt : Option Nat
deriving DecidableEq, Repr

/-- A request body for `PATCH /api/contacts/:id`. -/
structure RawContactPatch where
  id : Option Nat
  projectId : Option Nat
  name : Option String
  role : Option String
  email : Option (Option String)
  phone : Option (Option String)
  notes : Option (Option String)
deriving DecidableEq, Repr

/-- A request body for `PATCH /api/budget-items/:id`. -/
structure RawBudgetItemPatch where
  id : Option Nat
  projectId : Option Nat
  description : Option String
  plannedCost : Option Int
  actualCost : Option Int
  paymentStatus : Option String
  category : Option (Option String)
deriving DecidableEq, Repr

/-- A request body for `PATCH /api/calendar-events/:id` as seen by
`updateCalendarEventSchema.parse`. -/
structure RawCalendarEventPatch where
  id : Option Nat
  projectId : Option Nat
  title : Option String
  type : Option String
  startDate : Option DateTime
  endDate : Option (Option DateTime)
  description : Option (Option String)
  location : Option (Option String)
deriving DecidableEq, Repr

/-- `updateTaskSchema.parse`: `insertTaskSchema.partial().omit({ projectId })`
strips `projectId` (and `id`/`createdAt`, absent from the insert schema);
the remaining keys pass through. -/
def parseUpdateTask (r : RawTaskPatch) : TaskPatch :=
  { id := none
    projectId := none
    title := r.title
    sectionName := r.sectionName
    status := r.status
    assignee := r.assignee
    dueDate := r.dueDate
    createdAt := none }

/-- `updateContactSchema.parse`. -/
def parseUpdateContact (r : RawContactPatch) : ContactPatch :=
  { id := none
    projectId := none
    name := r.name
    role := r.role
    email := r.email
    phone := r.phone
    notes := r.notes }

/-- `updateBudgetItemSchema.parse`. -/
def parseUpdateBudgetItem (r : RawBudgetItemPatch) : BudgetItemPatch :=
  { id := none
    projectId := none
    description := r.description
    plannedCost := r.plannedCost
    actualCost := r.actualCost
    paymentStatus := r.paymentStatus
    category := r.category }

/-- `updateCalendarEventSchema.parse`. -/
def parseUpdateCalendarEvent (r : RawCalendarEventPatch) : CalendarEventPatch :=
  { id := none
    projectId := none
    title := r.title
    type := r.type
    startDate := r.startDate
    endDate := r.endDate
    description := r.description
    location := r.location }

/-- The validated body of `PATCH /api/projects/:id`: the route builds
`{ ...req.body, shootDate: req.body.shootDate ? new Date(...) : undefined }`,
so the `shootDate` key is always present (possibly with `undefined`), and
`updateProjectSchema.parse` keeps a present key even when its value is
`undefined` while stripping the unknown keys `id` and `createdAt`. -/
def parseUpdateProjectRoute (r : RawProjectPatch) : ProjectPatch :=
  { id := none
    name := r.name
    type := r.type
    status := r.status
    clientName := r.clientName
    shootDate := some r.shootDate
    budget := r.budget
    description := r.description
    createdAt := none }

/-- `PATCH /api/projects/:id`: validate the body, then
`storage.updateProject(req.params.id, validatedData)`. -/
def patchProjectRoute (s : MemStorage) (id : Nat) (r : RawProjectPatch) :
    Option Project × MemStorage :=
  s.updateProject id (parseUpdateProjectRoute r)

/-! ### Budget calculator (`budget-tracker.tsx`) -/

/-- `budgetItems.reduce((sum, item) => sum + item.plannedCost, 0)`. -/
def totalPlanned (items : List BudgetItem) : Int :=
  items.foldl (fun sum item => sum + item.plannedCost) 0

/-- `budgetItems.reduce((sum, item) => sum + item.actualCost, 0)`. -/
def totalActual (items : List BudgetItem) : Int :=
  items.foldl (fun sum item => sum + item.actualCost) 0

/-- `projectBudget - totalActual`. -/
def profitLoss (projectBudget : Int) (items : List BudgetItem) : Int :=
  projectBudget - totalActual items

/-- The margin display: `projectBudget > 0` guards the division
`(profitLoss / projectBudget) * 100`; otherwise the component renders
`'No budget set'` (modelled as `none`). -/
def margin (projectBudget : Int) (items : List BudgetItem) : Option ℚ :=
  if projectBudget > 0 then
    some ((profitLoss projectBudget items : ℚ) / (projectBudget : ℚ) * 100)
  else
    none

/-! ### Timeline aggregator (calendar page) -/

/-- A displayable timeline item.  Calendar events carry their own optional
fields; deadline and photoshoot items have none of them. -/
structure TimelineItem where
  id : Nat
  type : String
  title : String
  startDate : DateTime
  projectId : Nat
  endDate : Option DateTime
  description : Option String
  location : Option String
deriving DecidableEq, Repr

/-- A `CalendarEvent` contributed as-is to the timeline. -/
def eventItem (e : CalendarEvent) : TimelineItem :=
  { id := e.id
    type := e.type
    title := e.title
    startDate := e.startDate
    projectId := e.projectId
    endDate := e.endDate
    description := e.description
    location := e.location }

/-- The `"Deadline"` item built from a task whose `dueDate` is `d`. -/
def deadlineItem (t : Task) (d : DateTime) : TimelineItem :=
  { id := t.id
    type := "Deadline"
    title := t.title
    startDate := d
    projectId := t.projectId
    endDate := none
    description := none
    location := none }

/-- The `"Photoshoot"` item built from a project whose `shootDate` is `d`. -/
def shootItem (p : Project) (d : DateTime) : TimelineItem :=
  { id := p.id
    type := "Photoshoot"
    title := p.name
    startDate := d
    projectId := p.id
    endDate := none
    description := none
    location := none }

/-- `getAllEventsForDate(date)`: calendar events on the day, then task
deadlines on the day (no status filter), then project shoot dates on the
day, concatenated in that order. -/
def getAllEventsForDate (allEvents : List CalendarEvent) (allTasks : List Task)
    (projects : List Project) (date : DateTime) : List TimelineItem :=
  (allEvents.filter (fun e => sameDay e.startDate date)).map eventItem
    ++ allTasks.filterMap (fun t =>
        t.dueDate.bind (fun d =>
          if sameDay d date then some (deadlineItem t d) else none))
    ++ projects.filterMap (fun p =>
        p.shootDate.bind (fun d =>
          if sameDay d date then some (shootItem p d) else none))

/-- Stable insertion of an item into a list sorted ascending by
`startDate`; an equal timestamp goes after the existing items. -/
def insertByTime (x : TimelineItem) : List TimelineItem → List TimelineItem
  | [] => [x]
  | y :: ys =>
    if x.startDate.timeKey < y.startDate.timeKey then x :: y :: ys
    else y :: insertByTime x ys

/-- The day view's `events.sort((a, b) => a.startDate - b.startDate)`: a
stable ascending sort by `startDate` (later elements are inserted after
earlier ones with an equal timestamp). -/
def sortByTime (l : List TimelineItem) : List TimelineItem :=
  l.foldl (fun acc x => insertByTime x acc) []

/-- `renderDayView` for a date: the aggregated items sorted by time. -/
def dayViewItems (allEvents : List CalendarEvent) (allTasks : List Task)
    (projects : List Project) (date : DateTime) : List TimelineItem :=
  sortByTime (getAllEventsForDate allEvents allTasks projects date)

/-! ### Operation sequences against the store -/

/-- One API-level store operation. -/
inductive Op where
  | createProject : InsertProject → Op
  | createTask : InsertTask → Op
  | createContact : InsertContact → Op
  | createBudgetItem : InsertBudgetItem → Op
  | createCalendarEvent : InsertCalendarEvent → Op
  | updateProject : Nat → ProjectPatch → Op
  | updateTask : Nat → TaskPatch → Op
  | updateContact : Nat → ContactPatch → Op
  | updateBudgetItem : Nat → BudgetItemPatch → Op
  | updateCalendarEvent : Nat → CalendarEventPatch → Op
  | deleteProject : Nat → Op
  | deleteTask : Nat → Op
  | deleteContact : Nat → Op
  | deleteBudgetItem : Nat → Op
  | deleteCalendarEvent : Nat → Op

/-- The state after one operation. -/
def applyOp (s : MemStorage) : Op → MemStorage
  | .createProject p => (s.createProject p).2
  | .createTask t => (s.createTask t).2
  | .createContact c => (s.createContact c).2
  | .createBudgetItem b => (s.createBudgetItem b).2
  | .createCalendarEvent e => (s.createCalendarEvent e).2
  | .updateProject id d => (s.updateProject id d).2
  | .updateTask id d => (s.updateTask id d).2
  | .updateContact id d => (s.updateContact id d).2
  | .updateBudgetItem id d => (s.updateBudgetItem id d).2
  | .updateCalendarEvent id d => (s.updateCalendarEvent id d).2
  | .deleteProject id => (s.deleteProject id).2
  | .deleteTask id => (s.deleteTask id).2
  | .deleteContact id => (s.deleteContact id).2
  | .deleteBudgetItem id => (s.deleteBudgetItem id).2
  | .deleteCalendarEvent id => (s.deleteCalendarEvent id).2

/-- The id of the record a creation operation returns, `none` for the
other operations. -/
def opCreatedId (s : MemStorage) : Op → Option Nat
  | .createProject p => some (s.createProject p).1.id
  | .createTask t => some (s.createTask t).1.id
  | .createContact c => some (s.createContact c).1.id
  | .createBudgetItem b => some (s.createBudgetItem b).1.id
  | .createCalendarEvent e => some (s.createCalendarEvent e).1.id
  | _ => none

/-- The ids returned by the creation operations of a sequence, in order. -/
def createdIds : MemStorage → List Op → List Nat
  | _, [] => []
  | s, op :: ops => (opCreatedId s op).toList ++ createdIds (applyOp s op) ops

/-- A well-formed keyed collection: keys are pairwise distinct (a JS `Map`
cannot hold a key twice), every record is stored under its own id (every
`set` call in the source uses the record's id as the key), and every key
was drawn from the id generator, hence is below the counter. -/
@[reducible]
def goodMap {α : Type} (idf : α → Nat) (bound : Nat) (m : List (Nat × α)) : Prop :=
  (m.map Prod.fst).Nodup ∧ ∀ kv ∈ m, idf kv.2 = kv.1 ∧ kv.1 < bound

/-- Well-formedness of the whole store: all five collections are good. -/
@[reducible]
def MemStorage.WF (s : MemStorage) : Prop :=
  goodMap Project.id s.nextId s.projects ∧
  goodMap Task.id s.nextId s.tasks ∧
  goodMap Contact.id s.nextId s.contacts ∧
  goodMap BudgetItem.id s.nextId s.budgetItems ∧
  goodMap CalendarEvent.id s.nextId s.calendarEvents

/-- The keyed entries the template loop appends, starting at a given
counter value: entry `k` holds the task for template entry `k`, stored
under its fresh id. -/
def templateTasks (projectId : Nat) : Nat → List TaskTemplate → List (Nat × Task)
  | _, [] => []
  | n, tt :: rest =>
    (n,
      { id := n
        projectId := projectId
        title := tt.title
        sectionName := tt.sectionName
        status := "To Do"
        assignee := some ""
        dueDate := none
        createdAt := n }) :: templateTasks projectId (n + 1) rest

/-! ### Concrete records and stores used by the witnesses -/

/-- A concrete stored project used by several witnesses. -/
def sampleProj0 : Project :=
  { id := 0, name := "Smith wedding", type := "Blank",
    status := "Planning", clientName := none, shootDate := none,
    budget := some 5000, description := none, createdAt := 0 }

/-- A second concrete stored project, with a set `shootDate`. -/
def sampleProj1 : Project :=
  { id := 1, name := "Acme shoot", type := "Blank",
    status := "Editing", clientName := some "Acme",
    shootDate := some ⟨2025, 6, 1, 10, 0⟩, budget := some 100,
    description := none, createdAt := 1 }

/-- A concrete stored task used by several witnesses. -/
def sampleTask2 : Task :=
  { id := 2, projectId := 0, title := "Cull images",
    sectionName := "Post-Production", status := "To Do",
    assignee := none, dueDate := none, createdAt := 2 }

/-- A small concrete well-formed store: two projects (ids 0 and 1), a task,
a contact and a budget item under project 0, a task and an event under
project 1. -/
def sampleStore : MemStorage :=
  { nextId := 7
    projects :=
      [ (0, sampleProj0),
        (1, sampleProj1) ]
    tasks :=
      [ (2, sampleTask2),
        (3, { id := 3, projectId := 1, title := "Invoice",
              sectionName := "General", status := "In Progress",
              assignee := some "R", dueDate := none, createdAt := 3 }) ]
    contacts :=
      [ (4, { id := 4, projectId := 0, name := "Ann", role := "Client",
              email := none, phone := none, notes := none }) ]
    budgetItems :=
      [ (5, { id := 5, projectId := 0, description := "Studio",
              plannedCost := 1000, actualCost := 1200,
              paymentStatus := "Paid", category := none }) ]
    calendarEvents :=
      [ (6, { id := 6, projectId := 1, title := "Kickoff", type := "Meeting",
              startDate := ⟨2025, 6, 1, 8, 0⟩, endDate := none,
              description := none, location := none }) ] }

/-- A concrete update payload supplying only `name`. -/
def samplePatch : ProjectPatch :=
  { id := none, name := some "New name", type := none, status := none,
    clientName := none, shootDate := none, budget := none,
    description := none, createdAt := none }

/-- A raw task payload attempting to change `projectId`, `id` and
`createdAt` while also editing `title`. -/
def sampleRawTaskPatch : RawTaskPatch :=
  { id := some 77, projectId := some 42, title := some "Edited",
    sectionName := none, status := none, assignee := none,
    dueDate := none, createdAt := some 99 }

/-- A raw project PATCH body that only renames the project (no `shootDate`
key before the route's coercion). -/
def sampleRawProjectPatch : RawProjectPatch :=
  { id := none, name := some "Renamed", type := none, status := none,
    clientName := none, shootDate := none, budget := none,
    description := none, createdAt := none }

/-- A `"Wedding"`-typed project creation payload. -/
def insWedding : InsertProject :=
  { name := "June wedding", type := "Wedding", status := "Planning",
    clientName := none, shootDate := none, budget := none, description := none }

/-- A `"Blank"`-typed project creation payload. -/
def insBlank : InsertProject :=
  { name := "Empty", type := "Blank", status := "Planning",
    clientName := none, shootDate := none, budget := none, description := none }

/-- A creation payload whose type matches no template. -/
def insOther : InsertProject :=
  { name := "Odd", type := "Corporate", status := "Planning",
    clientName := none, shootDate := none, budget := none, description := none }

/-- The budget-item list of the spec's worked example:
`[{planned:1000, actual:1200}, {planned:500, actual:300}]`. -/
def sampleItems : List BudgetItem :=
  [ { id := 5, projectId := 0, description := "Studio", plannedCost := 1000,
      actualCost := 1200, paymentStatus := "Paid", category := none },
    { id := 7, projectId := 0, description := "Assistant", plannedCost := 500,
      actualCost := 300, paymentStatus := "Unpaid", category := none } ]

/-- The project of the spec's timeline example (`shootDate` 2025-06-01
10:00). -/
def exProject : Project :=
  { id := 10, name := "Beach wedding", type := "Wedding",
    status := "Planning", clientName := none,
    shootDate := some ⟨2025, 6, 1, 10, 0⟩, budget := none,
    description := none, createdAt := 0 }

/-- The task of the timeline example (`dueDate` 2025-06-01 23:00); its
status is Completed to exhibit that completed tasks still surface. -/
def exTask : Task :=
  { id := 11, projectId := 10, title := "Deliver gallery",
    sectionName := "Post-Production", status := "Completed",
    assignee := none, dueDate := some ⟨2025, 6, 1, 23, 0⟩, createdAt := 0 }

/-- The calendar event of the timeline example (`startDate` 2025-06-01
08:00). -/
def exEvent : CalendarEvent :=
  { id := 12, projectId := 10, title := "Ceremony", type := "Photoshoot",
    startDate := ⟨2025, 6, 1, 8, 0⟩, endDate := none,
    description := none, location := none }

/-- The reference day of the timeline example. -/
def exDay : DateTime := ⟨2025, 6, 1, 12, 0⟩

/-! ### Basic facts about the map operations -/

theorem mapHas_eq_isSome {α : Type} (m : List (Nat × α)) (k : Nat) :
    mapHas m k = (mapGet m k).isSome := by
  rw [Bool.eq_iff_iff]
  simp [mapHas, mapGet, List.find?_isSome, List.any_eq_true]

theorem mapGet_mapDelete_self {α : Type} (m : List (Nat × α)) (k : Nat) :
    mapGet (mapDelete m k) k = none := by
  simp only [mapGet, mapDelete, Option.map_eq_none', List.find?_eq_none]
  intro kv hkv
  simp at hkv ⊢
  omega

theorem mapGet_mapDelete_other {α : Type} (m : List (Nat × α)) (k j : Nat)
    (hjk : j ≠ k) : mapGet (mapDelete m k) j = mapGet m j := by
  unfold mapGet mapDelete
  rw [List.find?_filter]
  congr 2
  funext a
  by_cases haj : a.1 = j
  · have hak : a.1 ≠ k := by omega
    simp [haj, hak]
    exact hjk
  · simp [haj]

theorem mapDelete_of_has_eq_false {α : Type} (m : List (Nat × α)) (k : Nat)
    (h : mapHas m k = false) : mapDelete m k = m := by
  simp only [mapHas, List.any_eq_false] at h
  refine List.filter_eq_self.mpr ?_
  intro kv hkv
  have := h kv hkv
  simp at this ⊢
  omega

theorem mapHas_mapDelete_self {α : Type} (m : List (Nat × α)) (k : Nat) :
    mapHas (mapDelete m k) k = false := by
  rw [mapHas_eq_isSome, mapGet_mapDelete_self]
  rfl

theorem mapSet_of_unbound {α : Type} (m : List (Nat × α)) (k : Nat) (v : α)
    (h : ∀ kv ∈ m, kv.1 ≠ k) : mapSet m k v = m ++ [(k, v)] := by
  have hany : m.any (fun kv => kv.1 == k) = false := by
    simp only [List.any_eq_false]
    intro kv hkv
    simpa using h kv hkv
  simp [mapSet, hany]

theorem foldl_mapDelete_eq {α β : Type} (f : β → Nat) :
    ∀ (ts : List β) (m : List (Nat × α)),
    ts.foldl (fun acc t => mapDelete acc (f t)) m
      = m.filter (fun kv => !(ts.map f).contains kv.1) := by
  intro ts
  induction ts with
  | nil => intro m; simp
  | cons t ts ih =>
    intro m
    rw [List.foldl_cons, ih, mapDelete, List.filter_filter]
    apply List.filter_congr
    intro kv _
    simp [List.contains_cons, Bool.not_or, Bool.and_comm, bne]
    rfl

/-- The dependent-collection sweep of `deleteProject` removes exactly the
records owned by the deleted project, provided the collection is a valid
`Map` image (distinct keys, each record stored under its own id). -/
theorem sweep_eq {α : Type} (idf pf : α → Nat) (pid : Nat) (m : List (Nat × α))
    (hnd : (m.map Prod.fst).Nodup) (hk : ∀ kv ∈ m, idf kv.2 = kv.1) :
    MemStorage.sweep idf pf pid m = m.filter (fun kv => pf kv.2 != pid) := by
  unfold MemStorage.sweep
  rw [foldl_mapDelete_eq]
  apply List.filter_congr
  intro kv hkv
  rw [Bool.eq_iff_iff]
  simp only [Bool.not_eq_eq_eq_not, Bool.not_true, bne_iff_ne, ne_eq,
    Bool.not_eq_true, List.contains_eq_any_beq, List.any_eq_false]
  constructor
  · intro h hpid
    have hkv2 : kv.2 ∈ (mapValues m).filter (fun t => pf t == pid) := by
      simp [mapValues, List.mem_filter]
      exact ⟨⟨kv.1, hkv⟩, hpid⟩
    have := h (idf kv.2) (List.mem_map_of_mem idf hkv2)
    rw [hk kv hkv] at this
    simp at this
  · intro hne x hx
    simp only [List.mem_map, List.mem_filter, mapValues] at hx
    obtain ⟨t, ⟨⟨ht, hpf⟩, hidf⟩⟩ := hx
    obtain ⟨a, ha, rfl⟩ := ht
    simp only [beq_eq_false_iff_ne, ne_eq]
    intro hxk
    have hai : idf a.2 = a.1 := hk a ha
    have hkey : a.1 = kv.1 := by omega
    have : a = kv := List.inj_on_of_nodup_map hnd ha hkv hkey
    rw [this] at hpf
    simp at hpf
    exact hne hpf

theorem filtered_listBy_self {α : Type} (pf : α → Nat) (pid : Nat)
    (m : List (Nat × α)) :
    ((m.filter fun kv => pf kv.2 != pid).map Prod.snd).filter
      (fun t => pf t == pid) = [] := by
  rw [List.filter_eq_nil_iff]
  intro t ht
  simp only [List.mem_map, List.mem_filter] at ht
  obtain ⟨kv, ⟨hkv, hne⟩, rfl⟩ := ht
  simp at hne ⊢
  exact hne

theorem filtered_listBy_other {α : Type} (pf : α → Nat) (pid qid : Nat)
    (hq : qid ≠ pid) (m : List (Nat × α)) :
    ((m.filter fun kv => pf kv.2 != pid).map Prod.snd).filter
      (fun t => pf t == qid) = (m.map Prod.snd).filter (fun t => pf t == qid) := by
  rw [List.filter_map, List.filter_map, List.filter_filter]
  congr 1
  apply List.filter_congr
  intro kv _
  by_cases h : pf kv.2 = qid
  · have : pf kv.2 ≠ pid := by omega
    simp [Function.comp, h, this]
    exact hq
  · simp [Function.comp, h]

/-! ### Claim C1 -/

/-- C1: for every project present in the store, `deleteProject` removes it
and exactly the dependent Task/Contact/BudgetItem/CalendarEvent records
whose `projectId` equals its id: afterwards `listByProject` is empty for
all four dependent kinds and `getProject` reports not-found, while every
record owned by any other project is neither removed nor mutated. -/
theorem claim_C1_cascade_delete (s : MemStorage) (pid : Nat)
    (hwf : s.WF) (hpresent : (s.getProject pid).isSome) :
    (s.deleteProject pid).1 = true ∧
    (s.deleteProject pid).2.getProject pid = none ∧
    (s.deleteProject pid).2.getTasksByProject pid = [] ∧
    (s.deleteProject pid).2.getContactsByProject pid = [] ∧
    (s.deleteProject pid).2.getBudgetItemsByProject pid = [] ∧
    (s.deleteProject pid).2.getCalendarEventsByProject pid = [] ∧
    ∀ qid, qid ≠ pid →
      (s.deleteProject pid).2.getProject qid = s.getProject qid ∧
      (s.deleteProject pid).2.getTasksByProject qid = s.getTasksByProject qid ∧
      (s.deleteProject pid).2.getContactsByProject qid = s.getContactsByProject qid ∧
      (s.deleteProject pid).2.getBudgetItemsByProject qid
        = s.getBudgetItemsByProject qid ∧
      (s.deleteProject pid).2.getCalendarEventsByProject qid
        = s.getCalendarEventsByProject qid := by
  have hhas : mapHas s.projects pid = true := by
    rw [mapHas_eq_isSome]
    exact hpresent
  have hdel : s.deleteProject pid =
      (true,
        { s with
          projects := mapDelete s.projects pid
          tasks := MemStorage.sweep Task.id Task.projectId pid s.tasks
          contacts := MemStorage.sweep Contact.id Contact.projectId pid s.contacts
          budgetItems :=
            MemStorage.sweep BudgetItem.id BudgetItem.projectId pid s.budgetItems
          calendarEvents :=
            MemStorage.sweep CalendarEvent.id CalendarEvent.projectId pid
              s.calendarEvents }) := by
    simp [MemStorage.deleteProject, hhas]
  have htasks := sweep_eq Task.id Task.projectId pid s.tasks
    hwf.2.1.1 (fun kv hkv => (hwf.2.1.2 kv hkv).1)
  have hcontacts := sweep_eq Contact.id Contact.projectId pid s.contacts
    hwf.2.2.1.1 (fun kv hkv => (hwf.2.2.1.2 kv hkv).1)
  have hbudget := sweep_eq BudgetItem.id BudgetItem.projectId pid s.budgetItems
    hwf.2.2.2.1.1 (fun kv hkv => (hwf.2.2.2.1.2 kv hkv).1)
  have hevents := sweep_eq CalendarEvent.id CalendarEvent.projectId pid
    s.calendarEvents hwf.2.2.2.2.1 (fun kv hkv => (hwf.2.2.2.2.2 kv hkv).1)
  rw [hdel]
  refine ⟨rfl, ?_, ?_, ?_, ?_, ?_, ?_⟩
  · exact mapGet_mapDelete_self s.projects pid
  · show (mapValues (MemStorage.sweep Task.id Task.projectId pid s.tasks)).filter
      (fun t => t.projectId == pid) = []
    rw [htasks]
    exact filtered_listBy_self Task.projectId pid s.tasks
  · show (mapValues
      (MemStorage.sweep Contact.id Contact.projectId pid s.contacts)).filter
      (fun c => c.projectId == pid) = []
    rw [hcontacts]
    exact filtered_listBy_self Contact.projectId pid s.contacts
  · show (mapValues
      (MemStorage.sweep BudgetItem.id BudgetItem.projectId pid s.budgetItems)).filter
      (fun b => b.projectId == pid) = []
    rw [hbudget]
    exact filtered_listBy_self BudgetItem.projectId pid s.budgetItems
  · show (mapValues
      (MemStorage.sweep CalendarEvent.id CalendarEvent.projectId pid
        s.calendarEvents)).filter (fun e => e.projectId == pid) = []
    rw [hevents]
    exact filtered_listBy_self CalendarEvent.projectId pid s.calendarEvents
  · intro qid hq
    refine ⟨mapGet_mapDelete_other s.projects pid qid hq, ?_, ?_, ?_, ?_⟩
    · show (mapValues (MemStorage.sweep Task.id Task.projectId pid s.tasks)).filter
        (fun t => t.projectId == qid) = _
      rw [htasks]
      exact filtered_listBy_other Task.projectId pid qid hq s.tasks
    · show (mapValues
        (MemStorage.sweep Contact.id Contact.projectId pid s.contacts)).filter
        (fun c => c.projectId == qid) = _
      rw [hcontacts]
      exact filtered_listBy_other Contact.projectId pid qid hq s.contacts
    · show (mapValues
        (MemStorage.sweep BudgetItem.id BudgetItem.projectId pid
          s.budgetItems)).filter (fun b => b.projectId == qid) = _
      rw [hbudget]
      exact filtered_listBy_other BudgetItem.projectId pid qid hq s.budgetItems
    · show (mapValues
        (MemStorage.sweep CalendarEvent.id CalendarEvent.projectId pid
          s.calendarEvents)).filter (fun e => e.projectId == qid) = _
      rw [hevents]
      exact filtered_listBy_other CalendarEvent.projectId pid qid hq s.calendarEvents

/-- Witness for C1 at `sampleStore` and project 0: the cascade empties the
dependent listings of project 0 and leaves project 1's records intact. -/
theorem claim_C1_cascade_delete_witness :
    (sampleStore.deleteProject 0).2.getProject 0 = none ∧
    (sampleStore.deleteProject 0).2.getTasksByProject 0 = [] ∧
    (sampleStore.deleteProject 0).2.getContactsByProject 0 = [] ∧
    (sampleStore.deleteProject 0).2.getBudgetItemsByProject 0 = [] ∧
    (sampleStore.deleteProject 0).2.getCalendarEventsByProject 0 = [] ∧
    (sampleStore.deleteProject 0).2.getTasksByProject 1
      = sampleStore.getTasksByProject 1 := by
  have h := claim_C1_cascade_delete sampleStore 0 (by decide) (by decide)
  exact ⟨h.2.1, h.2.2.1, h.2.2.2.1, h.2.2.2.2.1, h.2.2.2.2.2.1,
    (h.2.2.2.2.2.2 1 (by decide)).2.1⟩

/-! ### Claim C8 -/

/-- C8: deleting an absent id returns `false` and leaves the entire store
unchanged (no dependent sweep for projects), for every entity kind; hence
deleting the same id twice makes the second call a no-op reporting
`false`. -/
theorem claim_C8_delete_absent_noop (s : MemStorage) (id : Nat) :
    (s.getProject id = none → s.deleteProject id = (false, s)) ∧
    (s.getTask id = none → s.deleteTask id = (false, s)) ∧
    (s.getContact id = none → s.deleteContact id = (false, s)) ∧
    (s.getBudgetItem id = none → s.deleteBudgetItem id = (false, s)) ∧
    (s.getCalendarEvent id = none → s.deleteCalendarEvent id = (false, s)) ∧
    (s.deleteProject id).2.deleteProject id = (false, (s.deleteProject id).2) ∧
    (s.deleteTask id).2.deleteTask id = (false, (s.deleteTask id).2) ∧
    (s.deleteContact id).2.deleteContact id = (false, (s.deleteContact id).2) ∧
    (s.deleteBudgetItem id).2.deleteBudgetItem id
      = (false, (s.deleteBudgetItem id).2) ∧
    (s.deleteCalendarEvent id).2.deleteCalendarEvent id
      = (false, (s.deleteCalendarEvent id).2) := by
  have habs : ∀ {α : Type} (m : List (Nat × α)),
      ((mapGet m id = none) → mapHas m id = false) := by
    intro α m h
    rw [mapHas_eq_isSome, h]
    rfl
  refine ⟨?_, ?_, ?_, ?_, ?_, ?_, ?_, ?_, ?_, ?_⟩
  · intro h
    simp [MemStorage.deleteProject, habs s.projects h]
  · intro h
    have hf := habs s.tasks h
    simp [MemStorage.deleteTask, hf, mapDelete_of_has_eq_false s.tasks id hf]
  · intro h
    have hf := habs s.contacts h
    simp [MemStorage.deleteContact, hf, mapDelete_of_has_eq_false s.contacts id hf]
  · intro h
    have hf := habs s.budgetItems h
    simp [MemStorage.deleteBudgetItem, hf,
      mapDelete_of_has_eq_false s.budgetItems id hf]
  · intro h
    have hf := habs s.calendarEvents h
    simp [MemStorage.deleteCalendarEvent, hf,
      mapDelete_of_has_eq_false s.calendarEvents id hf]
  · by_cases hhas : mapHas s.projects id = true
    · have h2 : mapHas (s.deleteProject id).2.projects id = false := by
        have hstate : (s.deleteProject id).2.projects = mapDelete s.projects id := by
          simp [MemStorage.deleteProject, hhas]
        rw [hstate]
        exact mapHas_mapDelete_self s.projects id
      obtain ⟨s2, hs2⟩ : ∃ s2, (s.deleteProject id).2 = s2 := ⟨_, rfl⟩
      rw [hs2] at h2 ⊢
      simp [MemStorage.deleteProject, h2]
    · have hf : mapHas s.projects id = false := by simpa using hhas
      have hfirst : (s.deleteProject id).2 = s := by
        simp [MemStorage.deleteProject, hf]
      rw [hfirst]
      simp [MemStorage.deleteProject, hf]
  · have hf : mapHas (mapDelete s.tasks id) id = false :=
      mapHas_mapDelete_self s.tasks id
    simp [MemStorage.deleteTask, hf,
      mapDelete_of_has_eq_false (mapDelete s.tasks id) id hf]
  · have hf : mapHas (mapDelete s.contacts id) id = false :=
      mapHas_mapDelete_self s.contacts id
    simp [MemStorage.deleteContact, hf,
      mapDelete_of_has_eq_false (mapDelete s.contacts id) id hf]
  · have hf : mapHas (mapDelete s.budgetItems id) id = false :=
      mapHas_mapDelete_self s.budgetItems id
    simp [MemStorage.deleteBudgetItem, hf,
      mapDelete_of_has_eq_false (mapDelete s.budgetItems id) id hf]
  · have hf : mapHas (mapDelete s.calendarEvents id) id = false :=
      mapHas_mapDelete_self s.calendarEvents id
    simp [MemStorage.deleteCalendarEvent, hf,
      mapDelete_of_has_eq_false (mapDelete s.calendarEvents id) id hf]

/-- Witness for C8: deleting the absent id 99 from `sampleStore` is a
reported no-op. -/
theorem claim_C8_delete_absent_noop_witness :
    sampleStore.deleteProject 99 = (false, sampleStore) ∧
    sampleStore.deleteTask 99 = (false, sampleStore) := by
  have h := claim_C8_delete_absent_noop sampleStore 99
  exact ⟨h.1 (by decide), h.2.1 (by decide)⟩

/-! ### Claim C7 -/

/-- C7: for every entity kind, update on a present id returns the shallow
merge of the supplied fields onto the existing record (each omitted field
retains its prior value, each supplied field applies), and update on an
absent id signals not-found and leaves the store unchanged. -/
theorem claim_C7_partial_update (s : MemStorage) (id : Nat) :
    (∀ d : ProjectPatch, s.getProject id = none → s.updateProject id d = (none, s)) ∧
    (∀ (d : ProjectPatch) (p : Project), s.getProject id = some p →
      (s.updateProject id d).1 = some (mergeProject p d) ∧
      (d.name = none → (mergeProject p d).name = p.name) ∧
      (∀ v, d.name = some v → (mergeProject p d).name = v) ∧
      (d.type = none → (mergeProject p d).type = p.type) ∧
      (∀ v, d.type = some v → (mergeProject p d).type = v) ∧
      (d.status = none → (mergeProject p d).status = p.status) ∧
      (∀ v, d.status = some v → (mergeProject p d).status = v) ∧
      (d.clientName = none → (mergeProject p d).clientName = p.clientName) ∧
      (∀ v, d.clientName = some v → (mergeProject p d).clientName = v) ∧
      (d.shootDate = none → (mergeProject p d).shootDate = p.shootDate) ∧
      (∀ v, d.shootDate = some v → (mergeProject p d).shootDate = v) ∧
      (d.budget = none → (mergeProject p d).budget = p.budget) ∧
      (∀ v, d.budget = some v → (mergeProject p d).budget = v) ∧
      (d.description = none → (mergeProject p d).description = p.description) ∧
      (∀ v, d.description = some v → (mergeProject p d).description = v)) ∧
    (∀ d : TaskPatch, s.getTask id = none → s.updateTask id d = (none, s)) ∧
    (∀ (d : TaskPatch) (t : Task), s.getTask id = some t →
      (s.updateTask id d).1 = some (mergeTask t d) ∧
      (d.title = none → (mergeTask t d).title = t.title) ∧
      (∀ v, d.title = some v → (mergeTask t d).title = v) ∧
      (d.sectionName = none → (mergeTask t d).sectionName = t.sectionName) ∧
      (∀ v, d.sectionName = some v → (mergeTask t d).sectionName = v) ∧
      (d.status = none → (mergeTask t d).status = t.status) ∧
      (∀ v, d.status = some v → (mergeTask t d).status = v) ∧
      (d.assignee = none → (mergeTask t d).assignee = t.assignee) ∧
      (∀ v, d.assignee = some v → (mergeTask t d).assignee = v) ∧
      (d.dueDate = none → (mergeTask t d).dueDate = t.dueDate) ∧
      (∀ v, d.dueDate = some v → (mergeTask t d).dueDate = v)) ∧
    (∀ d : ContactPatch, s.getContact id = none → s.updateContact id d = (none, s)) ∧
    (∀ (d : ContactPatch) (c : Contact), s.getContact id = some c →
      (s.updateContact id d).1 = some (mergeContact c d) ∧
      (d.name = none → (mergeContact c d).name = c.name) ∧
      (∀ v, d.name = some v → (mergeContact c d).name = v) ∧
      (d.role = none → (mergeContact c d).role = c.role) ∧
      (∀ v, d.role = some v → (mergeContact c d).role = v) ∧
      (d.email = none → (mergeContact c d).email = c.email) ∧
      (∀ v, d.email = some v → (mergeContact c d).email = v) ∧
      (d.phone = none → (mergeContact c d).phone = c.phone) ∧
      (∀ v, d.phone = some v → (mergeContact c d).phone = v) ∧
      (d.notes = none → (mergeContact c d).notes = c.notes) ∧
      (∀ v, d.notes = some v → (mergeContact c d).notes = v)) ∧
    (∀ d : BudgetItemPatch, s.getBudgetItem id = none → s.updateBudgetItem id d = (none, s)) ∧
    (∀ (d : BudgetItemPatch) (b : BudgetItem), s.getBudgetItem id = some b →
      (s.updateBudgetItem id d).1 = some (mergeBudgetItem b d) ∧
      (d.description = none → (mergeBudgetItem b d).description = b.description) ∧
      (∀ v, d.description = some v → (mergeBudgetItem b d).description = v) ∧
      (d.plannedCost = none → (mergeBudgetItem b d).plannedCost = b.plannedCost) ∧
      (∀ v, d.plannedCost = some v → (mergeBudgetItem b d).plannedCost = v) ∧
      (d.actualCost = none → (mergeBudgetItem b d).actualCost = b.actualCost) ∧
      (∀ v, d.actualCost = some v → (mergeBudgetItem b d).actualCost = v) ∧
      (d.paymentStatus = none → (mergeBudgetItem b d).paymentStatus = b.paymentStatus) ∧
      (∀ v, d.paymentStatus = some v → (mergeBudgetItem b d).paymentStatus = v) ∧
      (d.category = none → (mergeBudgetItem b d).category = b.category) ∧
      (∀ v, d.category = some v → (mergeBudgetItem b d).category = v)) ∧
    (∀ d : CalendarEventPatch, s.getCalendarEvent id = none → s.updateCalendarEvent id d = (none, s)) ∧
    (∀ (d : CalendarEventPatch) (e : CalendarEvent), s.getCalendarEvent id = some e →
      (s.updateCalendarEvent id d).1 = some (mergeCalendarEvent e d) ∧
      (d.title = none → (mergeCalendarEvent e d).title = e.title) ∧
      (∀ v, d.title = some v → (mergeCalendarEvent e d).title = v) ∧
      (d.type = none → (mergeCalendarEvent e d).type = e.type) ∧
      (∀ v, d.type = some v → (mergeCalendarEvent e d).type = v) ∧
      (d.startDate = none → (mergeCalendarEvent e d).startDate = e.startDate) ∧
      (∀ v, d.startDate = some v → (mergeCalendarEvent e d).startDate = v) ∧
      (d.endDate = none → (mergeCalendarEvent e d).endDate = e.endDate) ∧
      (∀ v, d.endDate = some v → (mergeCalendarEvent e d).endDate = v) ∧
      (d.description = none → (mergeCalendarEvent e d).description = e.description) ∧
      (∀ v, d.description = some v → (mergeCalendarEvent e d).description = v) ∧
      (d.location = none → (mergeCalendarEvent e d).location = e.location) ∧
      (∀ v, d.location = some v → (mergeCalendarEvent e d).location = v)) := by
  refine ⟨?_, ?_, ?_, ?_, ?_, ?_, ?_, ?_, ?_, ?_⟩
  · intro d h
    simp only [MemStorage.getProject] at h
    simp [MemStorage.updateProject, h]
  · intro d x hx
    simp only [MemStorage.getProject] at hx
    constructor
    · simp [MemStorage.updateProject, hx]
    · repeat' apply And.intro
      all_goals intros
      all_goals simp_all [mergeProject]
  · intro d h
    simp only [MemStorage.getTask] at h
    simp [MemStorage.updateTask, h]
  · intro d x hx
    simp only [MemStorage.getTask] at hx
    constructor
    · simp [MemStorage.updateTask, hx]
    · repeat' apply And.intro
      all_goals intros
      all_goals simp_all [mergeTask]
  · intro d h
    simp only [MemStorage.getContact] at h
    simp [MemStorage.updateContact, h]
  · intro d x hx
    simp only [MemStorage.getContact] at hx
    constructor
    · simp [MemStorage.updateContact, hx]
    · repeat' apply And.intro
      all_goals intros
      all_goals simp_all [mergeContact]
  · intro d h
    simp only [MemStorage.getBudgetItem] at h
    simp [MemStorage.updateBudgetItem, h]
  · intro d x hx
    simp only [MemStorage.getBudgetItem] at hx
    constructor
    · simp [MemStorage.updateBudgetItem, hx]
    · repeat' apply And.intro
      all_goals intros
      all_goals simp_all [mergeBudgetItem]
  · intro d h
    simp only [MemStorage.getCalendarEvent] at h
    simp [MemStorage.updateCalendarEvent, h]
  · intro d x hx
    simp only [MemStorage.getCalendarEvent] at hx
    constructor
    · simp [MemStorage.updateCalendarEvent, hx]
    · repeat' apply And.intro
      all_goals intros
      all_goals simp_all [mergeCalendarEvent]

/-- Witness for C7 at `sampleStore`: updating project 0 with a payload that
only supplies `name` returns the merge, applies `name`, retains `status`,
and updating the absent id 99 is a not-found no-op. -/
theorem claim_C7_partial_update_witness :
    (sampleStore.updateProject 0 samplePatch).1
      = some (mergeProject sampleProj0 samplePatch) ∧
    (mergeProject sampleProj0 samplePatch).name = "New name" ∧
    (mergeProject sampleProj0 samplePatch).status = sampleProj0.status ∧
    sampleStore.updateProject 99 samplePatch = (none, sampleStore) := by
  have h := claim_C7_partial_update sampleStore 0
  have habs := claim_C7_partial_update sampleStore 99
  have hp := h.2.1 samplePatch sampleProj0 (by decide)
  exact ⟨hp.1, hp.2.2.1 "New name" rfl, hp.2.2.2.2.2.1 rfl,
    habs.1 samplePatch (by decide)⟩

/-! ### Claim C2 -/

/-- C2: for every dependent record kind, the validated update (the zod
update schema followed by the store merge) leaves `projectId` (and, where
the record has them, `id` and `createdAt`) unchanged even when the raw
payload attempts to change them, applies the rest of the payload's fields,
and succeeds rather than raising. -/
theorem claim_C2_update_field_protection (s : MemStorage) (id : Nat) :
    (∀ (r : RawTaskPatch) (x : Task), s.getTask id = some x →
      (s.updateTask id (parseUpdateTask r)).1 = some (mergeTask x (parseUpdateTask r)) ∧
      (mergeTask x (parseUpdateTask r)).projectId = x.projectId ∧
      (mergeTask x (parseUpdateTask r)).id = x.id ∧
      (mergeTask x (parseUpdateTask r)).createdAt = x.createdAt ∧
      (r.title = none → (mergeTask x (parseUpdateTask r)).title = x.title) ∧
      (∀ v, r.title = some v → (mergeTask x (parseUpdateTask r)).title = v) ∧
      (r.sectionName = none → (mergeTask x (parseUpdateTask r)).sectionName = x.sectionName) ∧
      (∀ v, r.sectionName = some v → (mergeTask x (parseUpdateTask r)).sectionName = v) ∧
      (r.status = none → (mergeTask x (parseUpdateTask r)).status = x.status) ∧
      (∀ v, r.status = some v → (mergeTask x (parseUpdateTask r)).status = v) ∧
      (r.assignee = none → (mergeTask x (parseUpdateTask r)).assignee = x.assignee) ∧
      (∀ v, r.assignee = some v → (mergeTask x (parseUpdateTask r)).assignee = v) ∧
      (r.dueDate = none → (mergeTask x (parseUpdateTask r)).dueDate = x.dueDate) ∧
      (∀ v, r.dueDate = some v → (mergeTask x (parseUpdateTask r)).dueDate = v)) ∧
    (∀ (r : RawContactPatch) (x : Contact), s.getContact id = some x →
      (s.updateContact id (parseUpdateContact r)).1 = some (mergeContact x (parseUpdateContact r)) ∧
      (mergeContact x (parseUpdateContact r)).projectId = x.projectId ∧
      (mergeContact x (parseUpdateContact r)).id = x.id ∧
      (r.name = none → (mergeContact x (parseUpdateContact r)).name = x.name) ∧
      (∀ v, r.name = some v → (mergeContact x (parseUpdateContact r)).name = v) ∧
      (r.role = none → (mergeContact x (parseUpdateContact r)).role = x.role) ∧
      (∀ v, r.role = some v → (mergeContact x (parseUpdateContact r)).role = v) ∧
      (r.email = none → (mergeContact x (parseUpdateContact r)).email = x.email) ∧
      (∀ v, r.email = some v → (mergeContact x (parseUpdateContact r)).email = v) ∧
      (r.phone = none → (mergeContact x (parseUpdateContact r)).phone = x.phone) ∧
      (∀ v, r.phone = some v → (mergeContact x (parseUpdateContact r)).phone = v) ∧
      (r.notes = none → (mergeContact x (parseUpdateContact r)).notes = x.notes) ∧
      (∀ v, r.notes = some v → (mergeContact x (parseUpdateContact r)).notes = v)) ∧
    (∀ (r : RawBudgetItemPatch) (x : BudgetItem), s.getBudgetItem id = some x →
      (s.updateBudgetItem id (parseUpdateBudgetItem r)).1 = some (mergeBudgetItem x (parseUpdateBudgetItem r)) ∧
      (mergeBudgetItem x (parseUpdateBudgetItem r)).projectId = x.projectId ∧
      (mergeBudgetItem x (parseUpdateBudgetItem r)).id = x.id ∧
      (r.description = none → (mergeBudgetItem x (parseUpdateBudgetItem r)).description = x.description) ∧
      (∀ v, r.description = some v → (mergeBudgetItem x (parseUpdateBudgetItem r)).description = v) ∧
      (r.plannedCost = none → (mergeBudgetItem x (parseUpdateBudgetItem r)).plannedCost = x.plannedCost) ∧
      (∀ v, r.plannedCost = some v → (mergeBudgetItem x (parseUpdateBudgetItem r)).plannedCost = v) ∧
      (r.actualCost = none → (mergeBudgetItem x (parseUpdateBudgetItem r)).actualCost = x.actualCost) ∧
      (∀ v, r.actualCost = some v → (mergeBudgetItem x (parseUpdateBudgetItem r)).actualCost = v) ∧
      (r.paymentStatus = none → (mergeBudgetItem x (parseUpdateBudgetItem r)).paymentStatus = x.paymentStatus) ∧
      (∀ v, r.paymentStatus = some v → (mergeBudgetItem x (parseUpdateBudgetItem r)).paymentStatus = v) ∧
      (r.category = none → (mergeBudgetItem x (parseUpdateBudgetItem r)).category = x.category) ∧
      (∀ v, r.category = some v → (mergeBudgetItem x (parseUpdateBudgetItem r)).category = v)) ∧
    (∀ (r : RawCalendarEventPatch) (x : CalendarEvent), s.getCalendarEvent id = some x →
      (s.updateCalendarEvent id (parseUpdateCalendarEvent r)).1 = some (mergeCalendarEvent x (parseUpdateCalendarEvent r)) ∧
      (mergeCalendarEvent x (parseUpdateCalendarEvent r)).projectId = x.projectId ∧
      (mergeCalendarEvent x (parseUpdateCalendarEvent r)).id = x.id ∧
      (r.title = none → (mergeCalendarEvent x (parseUpdateCalendarEvent r)).title = x.title) ∧
      (∀ v, r.title = some v → (mergeCalendarEvent x (parseUpdateCalendarEvent r)).title = v) ∧
      (r.type = none → (mergeCalendarEvent x (parseUpdateCalendarEvent r)).type = x.type) ∧
      (∀ v, r.type = some v → (mergeCalendarEvent x (parseUpdateCalendarEvent r)).type = v) ∧
      (r.startDate = none → (mergeCalendarEvent x (parseUpdateCalendarEvent r)).startDate = x.startDate) ∧
      (∀ v, r.startDate = some v → (mergeCalendarEvent x (parseUpdateCalendarEvent r)).startDate = v) ∧
      (r.endDate = none → (mergeCalendarEvent x (parseUpdateCalendarEvent r)).endDate = x.endDate) ∧
      (∀ v, r.endDate = some v → (mergeCalendarEvent x (parseUpdateCalendarEvent r)).endDate = v) ∧
      (r.description = none → (mergeCalendarEvent x (parseUpdateCalendarEvent r)).description = x.description) ∧
      (∀ v, r.description = some v → (mergeCalendarEvent x (parseUpdateCalendarEvent r)).description = v) ∧
      (r.location = none → (mergeCalendarEvent x (parseUpdateCalendarEvent r)).location = x.location) ∧
      (∀ v, r.location = some v → (mergeCalendarEvent x (parseUpdateCalendarEvent r)).location = v)) := by
  refine ⟨?_, ?_, ?_, ?_⟩
  · intro r x hx
    simp only [MemStorage.getTask] at hx
    constructor
    · simp [MemStorage.updateTask, hx]
    · repeat' apply And.intro
      all_goals intros
      all_goals simp_all [mergeTask, parseUpdateTask]
  · intro r x hx
    simp only [MemStorage.getContact] at hx
    constructor
    · simp [MemStorage.updateContact, hx]
    · repeat' apply And.intro
      all_goals intros
      all_goals simp_all [mergeContact, parseUpdateContact]
  · intro r x hx
    simp only [MemStorage.getBudgetItem] at hx
    constructor
    · simp [MemStorage.updateBudgetItem, hx]
    · repeat' apply And.intro
      all_goals intros
      all_goals simp_all [mergeBudgetItem, parseUpdateBudgetItem]
  · intro r x hx
    simp only [MemStorage.getCalendarEvent] at hx
    constructor
    · simp [MemStorage.updateCalendarEvent, hx]
    · repeat' apply And.intro
      all_goals intros
      all_goals simp_all [mergeCalendarEvent, parseUpdateCalendarEvent]

/-- Witness for C2 at `sampleStore`: the validated update of task 2 keeps
`projectId`, `id` and `createdAt` despite the payload's attempt, while the
`title` edit applies. -/
theorem claim_C2_update_field_protection_witness :
    (sampleStore.updateTask 2 (parseUpdateTask sampleRawTaskPatch)).1
      = some (mergeTask sampleTask2 (parseUpdateTask sampleRawTaskPatch)) ∧
    (mergeTask sampleTask2 (parseUpdateTask sampleRawTaskPatch)).projectId
      = sampleTask2.projectId ∧
    (mergeTask sampleTask2 (parseUpdateTask sampleRawTaskPatch)).id
      = sampleTask2.id ∧
    (mergeTask sampleTask2 (parseUpdateTask sampleRawTaskPatch)).createdAt
      = sampleTask2.createdAt ∧
    (mergeTask sampleTask2 (parseUpdateTask sampleRawTaskPatch)).title
      = "Edited" := by
  have h := (claim_C2_update_field_protection sampleStore 2).1
    sampleRawTaskPatch sampleTask2 (by decide)
  exact ⟨h.1, h.2.1, h.2.2.1, h.2.2.2.1, h.2.2.2.2.2.1 "Edited" rfl⟩

/-! ### Claim C10 -/

/-- C10: in every store update, a field key present in the payload with
value `undefined` is applied by the shallow spread and overwrites the
stored value with `undefined` (it is not treated like an omitted key); in
particular `PATCH /api/projects/:id` always injects `shootDate`
(`undefined` when the request body lacks it), so updating any other
project field through that route clears a previously set `shootDate`. -/
theorem claim_C10_present_undefined_overwrites :
    (∀ (p : Project) (d : ProjectPatch), d.shootDate = some none →
      (mergeProject p d).shootDate = none) ∧
    (∀ (p : Project) (d : ProjectPatch), d.clientName = some none →
      (mergeProject p d).clientName = none) ∧
    (∀ (p : Project) (d : ProjectPatch), d.description = some none →
      (mergeProject p d).description = none) ∧
    (∀ (t : Task) (d : TaskPatch), d.dueDate = some none →
      (mergeTask t d).dueDate = none) ∧
    (∀ (t : Task) (d : TaskPatch), d.assignee = some none →
      (mergeTask t d).assignee = none) ∧
    (∀ (c : Contact) (d : ContactPatch), d.email = some none →
      (mergeContact c d).email = none) ∧
    (∀ (b : BudgetItem) (d : BudgetItemPatch), d.category = some none →
      (mergeBudgetItem b d).category = none) ∧
    (∀ (e : CalendarEvent) (d : CalendarEventPatch), d.endDate = some none →
      (mergeCalendarEvent e d).endDate = none) ∧
    (∀ (s : MemStorage) (id : Nat) (r : RawProjectPatch) (p : Project),
      s.getProject id = some p → r.shootDate = none →
      (patchProjectRoute s id r).1
        = some (mergeProject p (parseUpdateProjectRoute r)) ∧
      (mergeProject p (parseUpdateProjectRoute r)).shootDate = none ∧
      (∀ v, r.name = some v →
        (mergeProject p (parseUpdateProjectRoute r)).name = v)) := by
  refine ⟨?_, ?_, ?_, ?_, ?_, ?_, ?_, ?_, ?_⟩
  · intro p d h
    simp [mergeProject, h]
  · intro p d h
    simp [mergeProject, h]
  · intro p d h
    simp [mergeProject, h]
  · intro t d h
    simp [mergeTask, h]
  · intro t d h
    simp [mergeTask, h]
  · intro c d h
    simp [mergeContact, h]
  · intro b d h
    simp [mergeBudgetItem, h]
  · intro e d h
    simp [mergeCalendarEvent, h]
  · intro s id r p hp hr
    simp only [MemStorage.getProject] at hp
    refine ⟨by simp [patchProjectRoute, MemStorage.updateProject, hp], ?_, ?_⟩
    · simp [mergeProject, parseUpdateProjectRoute, hr]
    · intro v hv
      simp [mergeProject, parseUpdateProjectRoute, hv]

/-- Witness for C10: project 1 of `sampleStore` has a set `shootDate`, and
renaming it through the PATCH route produces a record whose `shootDate` is
cleared while the rename applies. -/
theorem claim_C10_present_undefined_overwrites_witness :
    sampleProj1.shootDate = some ⟨2025, 6, 1, 10, 0⟩ ∧
    (patchProjectRoute sampleStore 1 sampleRawProjectPatch).1
      = some (mergeProject sampleProj1 (parseUpdateProjectRoute sampleRawProjectPatch)) ∧
    (mergeProject sampleProj1 (parseUpdateProjectRoute sampleRawProjectPatch)).shootDate
      = none ∧
    (mergeProject sampleProj1 (parseUpdateProjectRoute sampleRawProjectPatch)).name
      = "Renamed" := by
  have h := claim_C10_present_undefined_overwrites.2.2.2.2.2.2.2.2
    sampleStore 1 sampleRawProjectPatch sampleProj1 (by decide) rfl
  exact ⟨rfl, h.1, h.2.1, h.2.2 "Renamed" rfl⟩

/-! ### Claim C3: helper lemmas and theorem -/

theorem createProject_fst (s : MemStorage) (p : InsertProject) :
    (s.createProject p).1 = MemStorage.mkProject s p := by
  simp only [MemStorage.createProject]
  split
  · split <;> rfl
  · rfl

theorem MemStorage.instantiateTemplate_nextId (pid : Nat) :
    ∀ (tmpl : List TaskTemplate) (s : MemStorage),
    (MemStorage.instantiateTemplate pid tmpl s).nextId = s.nextId + tmpl.length := by
  intro tmpl
  induction tmpl with
  | nil => intro s; rfl
  | cons tt tmpl ih =>
    intro s
    show (MemStorage.instantiateTemplate pid tmpl _).nextId = _
    rw [ih]
    simp [MemStorage.createTask]
    omega

theorem MemStorage.instantiateTemplate_tasks (pid : Nat) :
    ∀ (tmpl : List TaskTemplate) (s : MemStorage),
    (∀ kv ∈ s.tasks, kv.1 < s.nextId) →
    (MemStorage.instantiateTemplate pid tmpl s).tasks
      = s.tasks ++ templateTasks pid s.nextId tmpl := by
  intro tmpl
  induction tmpl with
  | nil => intro s _; simp [MemStorage.instantiateTemplate, templateTasks]
  | cons tt tmpl ih =>
    intro s hb
    have hset : mapSet s.tasks s.nextId
        { id := s.nextId, projectId := pid, title := tt.title,
          sectionName := tt.sectionName, status := "To Do",
          assignee := some "", dueDate := none, createdAt := s.nextId }
        = s.tasks ++ [(s.nextId,
          { id := s.nextId, projectId := pid, title := tt.title,
            sectionName := tt.sectionName, status := "To Do",
            assignee := some "", dueDate := none, createdAt := s.nextId })] :=
      mapSet_of_unbound _ _ _ (fun kv hkv => Nat.ne_of_lt (hb kv hkv))
    have hb1 : ∀ kv ∈ (s.createTask
        { projectId := pid, title := tt.title, sectionName := tt.sectionName,
          status := "To Do", assignee := some "", dueDate := none }).2.tasks,
        kv.1 < (s.createTask
        { projectId := pid, title := tt.title, sectionName := tt.sectionName,
          status := "To Do", assignee := some "", dueDate := none }).2.nextId := by
      intro kv hkv
      simp only [MemStorage.createTask, hset] at hkv ⊢
      rcases List.mem_append.mp hkv with h | h
      · exact Nat.lt_succ_of_lt (hb kv h)
      · rw [List.mem_singleton] at h
        subst h
        exact Nat.lt_succ_self _
    show (MemStorage.instantiateTemplate pid tmpl _).tasks = _
    rw [ih _ hb1]
    simp only [MemStorage.createTask, hset, templateTasks]
    rw [List.append_assoc]
    rfl

theorem templateTasks_length (pid : Nat) :
    ∀ (n : Nat) (tmpl : List TaskTemplate),
    (templateTasks pid n tmpl).length = tmpl.length := by
  intro n tmpl
  induction tmpl generalizing n with
  | nil => rfl
  | cons tt tmpl ih => simp [templateTasks, ih]

theorem templateTasks_mem (pid : Nat) :
    ∀ (n : Nat) (tmpl : List TaskTemplate), ∀ kv ∈ templateTasks pid n tmpl,
    kv.2.projectId = pid ∧ kv.2.status = "To Do" ∧
    kv.2.assignee = some "" ∧ kv.2.dueDate = none := by
  intro n tmpl
  induction tmpl generalizing n with
  | nil => simp [templateTasks]
  | cons tt tmpl ih =>
    intro kv hkv
    rw [templateTasks] at hkv
    rcases List.mem_cons.mp hkv with h | h
    · subst h
      exact ⟨rfl, rfl, rfl, rfl⟩
    · exact ih (n + 1) kv h

/-- C3: creating a `"Wedding"` project additionally inserts exactly the 13
template tasks, in template order, each owned by the new project with
status `"To Do"`, empty assignee and no due date; creating a `"Blank"`
project inserts no task, and so does a project whose type matches no
template. -/
theorem claim_C3_template_instantiation (s : MemStorage) (ins : InsertProject)
    (hb : ∀ kv ∈ s.tasks, kv.1 < s.nextId) :
    (ins.type = "Wedding" →
      (s.createProject ins).2.tasks
        = s.tasks
          ++ templateTasks (s.createProject ins).1.id (s.nextId + 1) weddingTemplate ∧
      weddingTemplate.length = 13 ∧
      (templateTasks (s.createProject ins).1.id (s.nextId + 1) weddingTemplate).length
        = 13 ∧
      ∀ kv ∈ templateTasks (s.createProject ins).1.id (s.nextId + 1) weddingTemplate,
        kv.2.projectId = (s.createProject ins).1.id ∧ kv.2.status = "To Do" ∧
        kv.2.assignee = some "" ∧ kv.2.dueDate = none) ∧
    (ins.type = "Blank" → (s.createProject ins).2.tasks = s.tasks) ∧
    (ins.type ∉ ["Wedding", "Portrait", "Commercial", "Event", "Blank"] →
      (s.createProject ins).2.tasks = s.tasks) := by
  refine ⟨?_, ?_, ?_⟩
  · intro hW
    have hcond : ins.type ≠ "" ∧ ins.type ≠ "Blank" := by
      rw [hW]
      exact ⟨by decide, by decide⟩
    have htmpl : projectTemplates ins.type = some weddingTemplate := by
      rw [hW]
      rfl
    have hid : (s.createProject ins).1.id = s.nextId := by
      rw [createProject_fst]
      rfl
    have h2 : (s.createProject ins).2
        = MemStorage.instantiateTemplate s.nextId weddingTemplate
            { s with nextId := s.nextId + 1,
                     projects := mapSet s.projects s.nextId (MemStorage.mkProject s ins) } := by
      simp only [MemStorage.createProject, htmpl]
      rw [if_pos hcond]
    have hb1 : ∀ kv ∈ s.tasks, kv.1 < s.nextId + 1 :=
      fun kv hkv => Nat.lt_succ_of_lt (hb kv hkv)
    rw [hid, h2, MemStorage.instantiateTemplate_tasks s.nextId weddingTemplate _ hb1]
    exact ⟨rfl, rfl, templateTasks_length s.nextId (s.nextId + 1) weddingTemplate,
      fun kv hkv => templateTasks_mem s.nextId (s.nextId + 1) weddingTemplate kv hkv⟩
  · intro hB
    have hcond : ¬(ins.type ≠ "" ∧ ins.type ≠ "Blank") := fun h => h.2 hB
    simp only [MemStorage.createProject]
    rw [if_neg hcond]
  · intro hU
    simp only [List.mem_cons, List.mem_singleton] at hU
    push_neg at hU
    by_cases hE : ins.type = ""
    · have hcond : ¬(ins.type ≠ "" ∧ ins.type ≠ "Blank") := fun h => h.1 hE
      simp only [MemStorage.createProject]
      rw [if_neg hcond]
    · have hcond : ins.type ≠ "" ∧ ins.type ≠ "Blank" := ⟨hE, hU.2.2.2.2.1⟩
      have htmpl : projectTemplates ins.type = none := by
        simp [projectTemplates, hU.1, hU.2.1, hU.2.2.1, hU.2.2.2.1, hU.2.2.2.2.1]
      simp only [MemStorage.createProject, htmpl]
      rw [if_pos hcond]

/-- Witness for C3 at `sampleStore`: a Wedding creation adds exactly 13
tasks, a Blank creation adds none, an unrecognized type adds none. -/
theorem claim_C3_template_instantiation_witness :
    ((sampleStore.createProject insWedding).2.tasks).length
      = sampleStore.tasks.length + 13 ∧
    (sampleStore.createProject insBlank).2.tasks = sampleStore.tasks ∧
    (sampleStore.createProject insOther).2.tasks = sampleStore.tasks := by
  have h := claim_C3_template_instantiation sampleStore insWedding (by decide)
  have hB := claim_C3_template_instantiation sampleStore insBlank (by decide)
  have hO := claim_C3_template_instantiation sampleStore insOther (by decide)
  refine ⟨?_, hB.2.1 rfl, hO.2.2 (by decide)⟩
  have hw := h.1 rfl
  rw [hw.1, List.length_append, hw.2.2.1]

/-! ### Claim C9: helper lemmas and theorem -/

theorem nextId_createProject_ge (s : MemStorage) (p : InsertProject) :
    s.nextId + 1 ≤ (s.createProject p).2.nextId := by
  simp only [MemStorage.createProject]
  split
  · split <;> simp [MemStorage.instantiateTemplate_nextId]
  · simp

theorem nextId_applyOp_le (s : MemStorage) (op : Op) :
    s.nextId ≤ (applyOp s op).nextId := by
  cases op with
  | createProject p => exact Nat.le_of_succ_le (nextId_createProject_ge s p)
  | createTask t =>
    show s.nextId ≤ s.nextId + 1
    omega
  | createContact c =>
    show s.nextId ≤ s.nextId + 1
    omega
  | createBudgetItem b =>
    show s.nextId ≤ s.nextId + 1
    omega
  | createCalendarEvent e =>
    show s.nextId ≤ s.nextId + 1
    omega
  | updateProject id d =>
    simp only [applyOp, MemStorage.updateProject]
    split <;> simp
  | updateTask id d =>
    simp only [applyOp, MemStorage.updateTask]
    split <;> simp
  | updateContact id d =>
    simp only [applyOp, MemStorage.updateContact]
    split <;> simp
  | updateBudgetItem id d =>
    simp only [applyOp, MemStorage.updateBudgetItem]
    split <;> simp
  | updateCalendarEvent id d =>
    simp only [applyOp, MemStorage.updateCalendarEvent]
    split <;> simp
  | deleteProject id =>
    simp only [applyOp, MemStorage.deleteProject]
    split <;> simp
  | deleteTask id => exact Nat.le_refl _
  | deleteContact id => exact Nat.le_refl _
  | deleteBudgetItem id => exact Nat.le_refl _
  | deleteCalendarEvent id => exact Nat.le_refl _

theorem opCreatedId_eq_nextId (s : MemStorage) (op : Op) (cid : Nat)
    (h : opCreatedId s op = some cid) : cid = s.nextId := by
  cases op with
  | createProject p =>
    simp only [opCreatedId, Option.some.injEq] at h
    rw [createProject_fst] at h
    exact h.symm
  | createTask t =>
    simp only [opCreatedId, Option.some.injEq] at h
    exact h.symm
  | createContact c =>
    simp only [opCreatedId, Option.some.injEq] at h
    exact h.symm
  | createBudgetItem b =>
    simp only [opCreatedId, Option.some.injEq] at h
    exact h.symm
  | createCalendarEvent e =>
    simp only [opCreatedId, Option.some.injEq] at h
    exact h.symm
  | updateProject id d => simp [opCreatedId] at h
  | updateTask id d => simp [opCreatedId] at h
  | updateContact id d => simp [opCreatedId] at h
  | updateBudgetItem id d => simp [opCreatedId] at h
  | updateCalendarEvent id d => simp [opCreatedId] at h
  | deleteProject id => simp [opCreatedId] at h
  | deleteTask id => simp [opCreatedId] at h
  | deleteContact id => simp [opCreatedId] at h
  | deleteBudgetItem id => simp [opCreatedId] at h
  | deleteCalendarEvent id => simp [opCreatedId] at h

theorem nextId_lt_applyOp_of_created (s : MemStorage) (op : Op) (cid : Nat)
    (h : opCreatedId s op = some cid) : s.nextId < (applyOp s op).nextId := by
  cases op with
  | createProject p =>
    exact Nat.lt_of_lt_of_le (Nat.lt_succ_self _) (nextId_createProject_ge s p)
  | createTask t =>
    show s.nextId < s.nextId + 1
    omega
  | createContact c =>
    show s.nextId < s.nextId + 1
    omega
  | createBudgetItem b =>
    show s.nextId < s.nextId + 1
    omega
  | createCalendarEvent e =>
    show s.nextId < s.nextId + 1
    omega
  | updateProject id d => simp [opCreatedId] at h
  | updateTask id d => simp [opCreatedId] at h
  | updateContact id d => simp [opCreatedId] at h
  | updateBudgetItem id d => simp [opCreatedId] at h
  | updateCalendarEvent id d => simp [opCreatedId] at h
  | deleteProject id => simp [opCreatedId] at h
  | deleteTask id => simp [opCreatedId] at h
  | deleteContact id => simp [opCreatedId] at h
  | deleteBudgetItem id => simp [opCreatedId] at h
  | deleteCalendarEvent id => simp [opCreatedId] at h

theorem createdIds_lower :
    ∀ (ops : List Op) (s : MemStorage), ∀ x ∈ createdIds s ops, s.nextId ≤ x := by
  intro ops
  induction ops with
  | nil =>
    intro s x hx
    simp [createdIds] at hx
  | cons op ops ih =>
    intro s x hx
    rw [createdIds] at hx
    rcases List.mem_append.mp hx with h | h
    · cases hop : opCreatedId s op with
      | none =>
        rw [hop] at h
        simp at h
      | some cid =>
        rw [hop] at h
        simp at h
        have := opCreatedId_eq_nextId s op cid hop
        omega
    · exact Nat.le_trans (nextId_applyOp_le s op) (ih (applyOp s op) x h)

/-- C9: over any sequence of store operations, the ids handed out by the
creation operations are strictly increasing, hence pairwise distinct; an
id is never reassigned or reused. -/
theorem claim_C9_id_uniqueness (s : MemStorage) (ops : List Op) :
    (createdIds s ops).Pairwise (· < ·) ∧ (createdIds s ops).Nodup := by
  have hp : ∀ (ops : List Op) (s : MemStorage),
      (createdIds s ops).Pairwise (· < ·) := by
    intro ops
    induction ops with
    | nil =>
      intro s
      simp [createdIds]
    | cons op ops ih =>
      intro s
      rw [createdIds]
      cases hop : opCreatedId s op with
      | none => simpa using ih (applyOp s op)
      | some cid =>
        simp only [Option.toList_some, List.singleton_append]
        refine List.Pairwise.cons ?_ (ih (applyOp s op))
        intro y hy
        have h1 := opCreatedId_eq_nextId s op cid hop
        have h2 := nextId_lt_applyOp_of_created s op cid hop
        have h3 := createdIds_lower ops (applyOp s op) y hy
        omega
  exact ⟨hp ops s, List.Pairwise.imp (fun h => Nat.ne_of_lt h) (hp ops s)⟩

/-! ### Claims C5 and C6 -/

theorem foldl_add_eq_sum (f : BudgetItem → Int) :
    ∀ (l : List BudgetItem) (a : Int),
    l.foldl (fun sum item => sum + f item) a = a + (l.map f).sum := by
  intro l
  induction l with
  | nil => intro a; simp
  | cons x l ih =>
    intro a
    rw [List.foldl_cons, ih, List.map_cons, List.sum_cons]
    ring

/-- C5: `totalPlanned` sums `plannedCost`, `totalActual` sums `actualCost`,
`profitLoss` is `budget - totalActual` (not `- totalPlanned`); on the
example (budget 5000, items planned 1000/500, actual 1200/300) the totals
are 1500 and 1500, profit/loss 3500 and margin 70%. -/
theorem claim_C5_budget_arithmetic :
    (∀ items : List BudgetItem,
      totalPlanned items = (items.map (·.plannedCost)).sum) ∧
    (∀ items : List BudgetItem,
      totalActual items = (items.map (·.actualCost)).sum) ∧
    (∀ (budget : Int) (items : List BudgetItem),
      profitLoss budget items = budget - (items.map (·.actualCost)).sum) ∧
    totalPlanned sampleItems = 1500 ∧
    totalActual sampleItems = 1500 ∧
    profitLoss 5000 sampleItems = 3500 ∧
    margin 5000 sampleItems = some 70 := by
  have hp : ∀ items : List BudgetItem,
      totalPlanned items = (items.map (·.plannedCost)).sum := by
    intro items
    rw [totalPlanned, foldl_add_eq_sum]
    ring
  have ha : ∀ items : List BudgetItem,
      totalActual items = (items.map (·.actualCost)).sum := by
    intro items
    rw [totalActual, foldl_add_eq_sum]
    ring
  refine ⟨hp, ha, ?_, by decide, by decide, by decide, ?_⟩
  · intro budget items
    rw [profitLoss, ha]
  · rw [margin]
    norm_num
    rw [show profitLoss 5000 sampleItems = 3500 by decide]
    norm_num

/-- C6: a zero budget reports the margin as undefined (\"no budget set\"),
with no division performed; a positive budget yields
`profitLoss / budget * 100`. -/
theorem claim_C6_zero_budget_guard (budget : Int) (items : List BudgetItem) :
    (budget = 0 → margin budget items = none) ∧
    (0 < budget → margin budget items
      = some ((profitLoss budget items : ℚ) / (budget : ℚ) * 100)) := by
  constructor
  · intro h
    simp [margin, h]
  · intro h
    simp [margin, h]

/-- Witness for C6: the example items with budget 0 give no margin; with
budget 5000 the division result is produced. -/
theorem claim_C6_zero_budget_guard_witness :
    margin 0 sampleItems = none ∧
    margin 5000 sampleItems
      = some ((profitLoss 5000 sampleItems : ℚ) / (5000 : ℚ) * 100) := by
  exact ⟨(claim_C6_zero_budget_guard 0 sampleItems).1 rfl,
    (claim_C6_zero_budget_guard 5000 sampleItems).2 (by norm_num)⟩

/-! ### Claim C4: helper lemmas and theorem -/

theorem insertByTime_perm (x : TimelineItem) (l : List TimelineItem) :
    (insertByTime x l).Perm (x :: l) := by
  induction l with
  | nil => exact List.Perm.refl _
  | cons y ys ih =>
    rw [insertByTime]
    split
    · exact List.Perm.refl _
    · exact (ih.cons y).trans (List.Perm.swap x y ys)

theorem insertByTime_pairwise (x : TimelineItem) (l : List TimelineItem)
    (h : l.Pairwise (fun a b => a.startDate.timeKey ≤ b.startDate.timeKey)) :
    (insertByTime x l).Pairwise
      (fun a b => a.startDate.timeKey ≤ b.startDate.timeKey) := by
  induction l with
  | nil => simp [insertByTime]
  | cons y ys ih =>
    rw [insertByTime]
    split
    · refine List.Pairwise.cons ?_ h
      intro z hz
      rcases List.mem_cons.mp hz with rfl | hz
      · omega
      · have hyz := List.rel_of_pairwise_cons h hz
        omega
    · refine List.Pairwise.cons ?_ (ih (List.Pairwise.of_cons h))
      intro z hz
      have hz2 := (insertByTime_perm x ys).mem_iff.mp hz
      rcases List.mem_cons.mp hz2 with rfl | hz2
      · omega
      · exact List.rel_of_pairwise_cons h hz2

theorem sortByTime_foldl_pairwise :
    ∀ (l acc : List TimelineItem),
    acc.Pairwise (fun a b => a.startDate.timeKey ≤ b.startDate.timeKey) →
    (l.foldl (fun acc x => insertByTime x acc) acc).Pairwise
      (fun a b => a.startDate.timeKey ≤ b.startDate.timeKey) := by
  intro l
  induction l with
  | nil => intro acc h; exact h
  | cons x l ih =>
    intro acc h
    exact ih (insertByTime x acc) (insertByTime_pairwise x acc h)

theorem sortByTime_foldl_perm :
    ∀ (l acc : List TimelineItem),
    (l.foldl (fun acc x => insertByTime x acc) acc).Perm (acc ++ l) := by
  intro l
  induction l with
  | nil => intro acc; simp
  | cons x l ih =>
    intro acc
    refine (ih (insertByTime x acc)).trans ?_
    exact ((insertByTime_perm x acc).append_right l).trans List.perm_middle.symm

/-- C4: the aggregation collects exactly the calendar events on the day,
the tasks with a due date on the day (no status filter, so Completed tasks
included) as Deadline items, and the projects with a shoot date on the day
as Photoshoot items; the day view is a stable ascending sort by
`startDate`; on the worked example the order is event (08:00), photoshoot
(10:00), deadline (23:00). -/
theorem claim_C4_timeline_merge :
    (∀ (events : List CalendarEvent) (tasks : List Task)
        (projects : List Project) (date : DateTime) (item : TimelineItem),
      item ∈ getAllEventsForDate events tasks projects date ↔
        ((∃ e ∈ events, sameDay e.startDate date = true ∧ item = eventItem e) ∨
         (∃ t ∈ tasks, ∃ d, t.dueDate = some d ∧ sameDay d date = true ∧
            item = deadlineItem t d) ∨
         (∃ p ∈ projects, ∃ d, p.shootDate = some d ∧ sameDay d date = true ∧
            item = shootItem p d))) ∧
    (∀ l : List TimelineItem,
      (sortByTime l).Pairwise
        (fun a b => a.startDate.timeKey ≤ b.startDate.timeKey) ∧
      (sortByTime l).Perm l) ∧
    dayViewItems [exEvent] [exTask] [exProject] exDay
      = [eventItem exEvent, shootItem exProject ⟨2025, 6, 1, 10, 0⟩,
         deadlineItem exTask ⟨2025, 6, 1, 23, 0⟩] := by
  refine ⟨?_, ?_, by decide⟩
  · intro events tasks projects date item
    simp only [getAllEventsForDate, List.mem_append, List.mem_map,
      List.mem_filter, List.mem_filterMap, Option.bind_eq_some]
    constructor
    · rintro ((⟨e, ⟨he, hd⟩, rfl⟩ | ⟨t, ht, d, hd, hit⟩) | ⟨p, hp, d, hd, hit⟩)
      · exact Or.inl ⟨e, he, hd, rfl⟩
      · rw [ite_eq_iff] at hit
        rcases hit with ⟨hsd, hit⟩ | ⟨_, hit⟩
        · exact Or.inr (Or.inl ⟨t, ht, d, hd, hsd, (Option.some.injEq _ _ ▸ hit).symm⟩)
        · simp at hit
      · rw [ite_eq_iff] at hit
        rcases hit with ⟨hsd, hit⟩ | ⟨_, hit⟩
        · exact Or.inr (Or.inr ⟨p, hp, d, hd, hsd, (Option.some.injEq _ _ ▸ hit).symm⟩)
        · simp at hit
    · rintro (⟨e, he, hd, rfl⟩ | ⟨t, ht, d, hd, hsd, rfl⟩ | ⟨p, hp, d, hd, hsd, rfl⟩)
      · exact Or.inl (Or.inl ⟨e, ⟨he, hd⟩, rfl⟩)
      · exact Or.inl (Or.inr ⟨t, ht, d, hd, by rw [if_pos hsd]⟩)
      · exact Or.inr ⟨p, hp, d, hd, by rw [if_pos hsd]⟩
  · intro l
    refine ⟨sortByTime_foldl_pairwise l [] List.Pairwise.nil, ?_⟩
    simpa using sortByTime_foldl_perm l []

end PixelFlow
